import Mathlib

/-!
Verification development for the C64U-Screenshot capture tool
(`C64U-Screenshot.py`).  The Python source is shallowly embedded below:

* pure helpers (palette, the VIC-II state decoder, the mode rasterizers,
  the sprite compositor, the 6502 copy-stub emitter, the ROM-overlap
  analyzer, CLI argument handling) become executable Lean functions;
* remote I/O against the Ultimate 64 is modelled by an `Oracle` that
  supplies the result of the n-th HTTP call, together with an explicit
  state `ApiS` recording the sequence of calls that were issued;
* Python exceptions that can escape a function are modelled with
  `Except Unit`; `None` results become `Option`.

Machine bytes are `Nat` values; every place the Python source masks a
value (`& 0xFF`, `& 0x0F`, ...) the embedding masks in the same way.
-/

/-- Pixel colors are RGB triples of byte values, as in the Python source
(PIL tuples). -/
abbrev Color := Nat × Nat × Nat

/-- The C64 color palette (VICE default), from `C64_PALETTE` in the source. -/
def C64_PALETTE : List Color :=
  [ (0x00, 0x00, 0x00),  -- 0 Black
    (0xFF, 0xFF, 0xFF),  -- 1 White
    (0x68, 0x37, 0x2B),  -- 2 Red
    (0x70, 0xA4, 0xB2),  -- 3 Cyan
    (0x6F, 0x3D, 0x86),  -- 4 Purple
    (0x58, 0x8D, 0x43),  -- 5 Green
    (0x35, 0x28, 0x79),  -- 6 Blue
    (0xB8, 0xC7, 0x6F),  -- 7 Yellow
    (0x6F, 0x4F, 0x25),  -- 8 Orange
    (0x43, 0x39, 0x00),  -- 9 Brown
    (0x9A, 0x67, 0x59),  -- 10 Light Red
    (0x44, 0x44, 0x44),  -- 11 Dark Grey
    (0x6C, 0x6C, 0x6C),  -- 12 Grey
    (0x9A, 0xD2, 0x84),  -- 13 Light Green
    (0x6C, 0x5E, 0xB5),  -- 14 Light Blue
    (0x95, 0x95, 0x95) ] -- 15 Light Grey

/-- Palette lookup `C64_PALETTE[i]`.  Every index the source uses is first
masked with `& 0x0F` (or bounded by construction), so the default branch of
`getD` is never reached on source-reachable inputs. -/
def palette (i : Nat) : Color := C64_PALETTE.getD i (0, 0, 0)

/-- Buffer location for the ROM copy (`COPY_BUFFER` in the source). -/
def COPY_BUFFER : Nat := 0x4000

/-- Size of the copy buffer (`COPY_BUFFER_SIZE`). -/
def COPY_BUFFER_SIZE : Nat := 0x2000

/-- Stub routine location (`STUB_ADDR`, the cassette buffer area). -/
def STUB_ADDR : Nat := 0x0340

/-- VIC-II chip state, as extracted by `VICIIState.__init__` from the 48
register bytes and the CIA2 data port byte.  The `raw_regs` field of the
Python object is not stored; callers of the embedding keep the register
list themselves. -/
structure VICIIState where
  yscroll : Nat
  rsel : Nat
  den : Nat
  bmm : Nat
  ecm : Nat
  xscroll : Nat
  csel : Nat
  mcm : Nat
  char_mem_offset : Nat
  screen_mem_offset : Nat
  bitmap_mem_offset : Nat
  vic_bank : Nat
  screen_mem_addr : Nat
  char_mem_addr : Nat
  bitmap_mem_addr : Nat
  border_color : Nat
  background_color : Nat
  background_color1 : Nat
  background_color2 : Nat
  background_color3 : Nat
  sprite_multicolor0 : Nat
  sprite_multicolor1 : Nat
deriving DecidableEq

/-- Embedding of `VICIIState.__init__`.  Python list indexing raises on a
short register block, hence the `Option`: `none` models the `IndexError`. -/
def mkVICIIState (vic_regs : List Nat) (cia2_data_port : Nat) : Option VICIIState :=
  match vic_regs.get? 0x11, vic_regs.get? 0x16, vic_regs.get? 0x18,
        vic_regs.get? 0x20, vic_regs.get? 0x21, vic_regs.get? 0x22,
        vic_regs.get? 0x23, vic_regs.get? 0x24, vic_regs.get? 0x25,
        vic_regs.get? 0x26 with
  | some d011, some d016, some d018, some r20, some r21, some r22,
    some r23, some r24, some r25, some r26 =>
    some
      { yscroll := d011 &&& 0x07
        rsel := (d011 >>> 3) &&& 1
        den := (d011 >>> 4) &&& 1
        bmm := (d011 >>> 5) &&& 1
        ecm := (d011 >>> 6) &&& 1
        xscroll := d016 &&& 0x07
        csel := (d016 >>> 3) &&& 1
        mcm := (d016 >>> 4) &&& 1
        char_mem_offset := ((d018 >>> 1) &&& 0x07) * 0x800
        screen_mem_offset := ((d018 >>> 4) &&& 0x0F) * 0x400
        bitmap_mem_offset := ((d018 >>> 3) &&& 1) * 0x2000
        vic_bank := (3 - (cia2_data_port &&& 0x03)) * 0x4000
        screen_mem_addr := (3 - (cia2_data_port &&& 0x03)) * 0x4000 +
          ((d018 >>> 4) &&& 0x0F) * 0x400
        char_mem_addr := (3 - (cia2_data_port &&& 0x03)) * 0x4000 +
          ((d018 >>> 1) &&& 0x07) * 0x800
        bitmap_mem_addr := (3 - (cia2_data_port &&& 0x03)) * 0x4000 +
          ((d018 >>> 3) &&& 1) * 0x2000
        border_color := r20 &&& 0x0F
        background_color := r21 &&& 0x0F
        background_color1 := r22 &&& 0x0F
        background_color2 := r23 &&& 0x0F
        background_color3 := r24 &&& 0x0F
        sprite_multicolor0 := r25 &&& 0x0F
        sprite_multicolor1 := r26 &&& 0x0F }
  | _, _, _, _, _, _, _, _, _, _ => none

/-- Embedding of `VICIIState.get_mode_name`.  Python truthiness of the 0/1
flag integers becomes `≠ 0` / `= 0`. -/
def get_mode_name (st : VICIIState) : String :=
  if st.ecm ≠ 0 ∧ st.bmm = 0 ∧ st.mcm = 0 then "Extended Background Color Mode"
  else if st.ecm = 0 ∧ st.bmm ≠ 0 ∧ st.mcm = 0 then "Standard Bitmap Mode (Hi-Res)"
  else if st.ecm = 0 ∧ st.bmm ≠ 0 ∧ st.mcm ≠ 0 then "Multicolor Bitmap Mode"
  else if st.ecm = 0 ∧ st.bmm = 0 ∧ st.mcm ≠ 0 then "Multicolor Text Mode"
  else if st.ecm = 0 ∧ st.bmm = 0 ∧ st.mcm = 0 then "Standard Text Mode"
  else "Invalid/Unused Mode"

/-!
Mode rasterizers.  Each Python renderer fills a fresh image with nested
loops over character cells; every pixel of the 320x200 (resp. 160x200)
grid is written exactly once, by the loop iteration with
`row = y / 8`, `col = x / 8` (and the bit index derived from `x % 8`).
The embeddings below are the per-pixel reading of those loops: the
function computes the color the loop writes at `(x, y)`.  Python indexing
into a too-short memory window raises `IndexError`; here the same access
is a `List.get?` and the pixel value becomes `none`, so "the renderer
crashes somewhere" corresponds to "some pixel is `none`".
-/

/-- Per-pixel embedding of `render_standard_text_mode`. -/
def renderStdTextPixel (vic : VICIIState) (screen_mem color_mem char_rom : List Nat)
    (x y : Nat) : Option Color :=
  let row := y / 8
  let col := x / 8
  let screen_pos := row * 40 + col
  match screen_mem.get? screen_pos, color_mem.get? screen_pos with
  | some char_code, some cb =>
    let color_idx := cb &&& 0x0F
    match char_rom.get? (char_code * 8 + y % 8) with
    | some byte =>
      some (if byte &&& (0x80 >>> (x % 8)) ≠ 0 then palette color_idx
            else palette vic.background_color)
    | none => none
  | _, _ => none

/-- Per-pixel embedding of `render_multicolor_text_mode`. -/
def renderMulticolorTextPixel (vic : VICIIState) (screen_mem color_mem char_rom : List Nat)
    (x y : Nat) : Option Color :=
  let row := y / 8
  let col := x / 8
  let screen_pos := row * 40 + col
  match screen_mem.get? screen_pos, color_mem.get? screen_pos with
  | some char_code, some color_byte =>
    let color_idx := color_byte &&& 0x0F
    let is_multicolor := color_byte &&& 0x08 ≠ 0
    match char_rom.get? (char_code * 8 + y % 8) with
    | some byte =>
      if is_multicolor then
        let xp := (x % 8) / 2
        let bits := (byte >>> (6 - xp * 2)) &&& 0x03
        some (if bits = 0 then palette vic.background_color
              else if bits = 1 then palette vic.background_color1
              else if bits = 2 then palette vic.background_color2
              else palette (color_idx &&& 0x07))
      else
        some (if byte &&& (0x80 >>> (x % 8)) ≠ 0 then palette color_idx
              else palette vic.background_color)
    | none => none
  | _, _ => none

/-- Per-pixel embedding of `render_hires_bitmap_mode`. -/
def renderHiresBitmapPixel (vic : VICIIState) (bitmap_mem screen_mem : List Nat)
    (x y : Nat) : Option Color :=
  let char_row := y / 8
  let char_col := x / 8
  let screen_pos := char_row * 40 + char_col
  match screen_mem.get? screen_pos with
  | some color_byte =>
    let fg_color := (color_byte >>> 4) &&& 0x0F
    let bg_color := color_byte &&& 0x0F
    match bitmap_mem.get? (char_row * 40 * 8 + char_col * 8 + y % 8) with
    | some byte =>
      some (if byte &&& (0x80 >>> (x % 8)) ≠ 0 then palette fg_color
            else palette bg_color)
    | none => none
  | none => none

/-- Per-pixel embedding of the 160x200 stage of `render_multicolor_bitmap_mode`. -/
def renderMulticolorBitmapPixel160 (vic : VICIIState)
    (bitmap_mem screen_mem color_mem : List Nat) (x y : Nat) : Option Color :=
  let char_row := y / 8
  let char_col := x / 4
  let screen_pos := char_row * 40 + char_col
  match screen_mem.get? screen_pos, color_mem.get? screen_pos with
  | some color_byte, some cram =>
    let color1 := (color_byte >>> 4) &&& 0x0F
    let color2 := color_byte &&& 0x0F
    let color3 := cram &&& 0x0F
    match bitmap_mem.get? (char_row * 40 * 8 + char_col * 8 + y % 8) with
    | some byte =>
      let xp := x % 4
      let bits := (byte >>> (6 - xp * 2)) &&& 0x03
      some (if bits = 0 then palette vic.background_color
            else if bits = 1 then palette color1
            else if bits = 2 then palette color2
            else palette color3)
    | none => none
  | _, _ => none

/-- `render_multicolor_bitmap_mode` after its final `resize((320, 200), NEAREST)`:
for an exact 2x horizontal enlargement PIL's nearest-neighbor filter maps
output column `x` to source column `x / 2`. -/
def renderMulticolorBitmapPixel (vic : VICIIState)
    (bitmap_mem screen_mem color_mem : List Nat) (x y : Nat) : Option Color :=
  renderMulticolorBitmapPixel160 vic bitmap_mem screen_mem color_mem (x / 2) y

/-- Per-pixel embedding of `render_ecm_mode`. -/
def renderECMPixel (vic : VICIIState) (screen_mem color_mem char_rom : List Nat)
    (x y : Nat) : Option Color :=
  let row := y / 8
  let col := x / 8
  let screen_pos := row * 40 + col
  match screen_mem.get? screen_pos, color_mem.get? screen_pos with
  | some screen_byte, some cb =>
    let char_code := screen_byte &&& 0x3F
    let bg_select := (screen_byte >>> 6) &&& 0x03
    let color_idx := cb &&& 0x0F
    let bg_color := [vic.background_color, vic.background_color1,
                     vic.background_color2, vic.background_color3].getD bg_select 0
    match char_rom.get? (char_code * 8 + y % 8) with
    | some byte =>
      some (if byte &&& (0x80 >>> (x % 8)) ≠ 0 then palette color_idx
            else palette bg_color)
    | none => none
  | _, _ => none

/-- The renderer dispatch of `capture_screenshot` (source lines 980-989):
`if vic.bmm and vic.mcm: ... elif vic.bmm: ... elif vic.ecm: ...
elif vic.mcm: ... else: ...`, read at one output pixel. -/
def renderDispatchPixel (vic : VICIIState)
    (bitmap_mem screen_mem color_mem char_rom : List Nat) (x y : Nat) : Option Color :=
  if vic.bmm ≠ 0 ∧ vic.mcm ≠ 0 then
    renderMulticolorBitmapPixel vic bitmap_mem screen_mem color_mem x y
  else if vic.bmm ≠ 0 then
    renderHiresBitmapPixel vic bitmap_mem screen_mem x y
  else if vic.ecm ≠ 0 then
    renderECMPixel vic screen_mem color_mem char_rom x y
  else if vic.mcm ≠ 0 then
    renderMulticolorTextPixel vic screen_mem color_mem char_rom x y
  else
    renderStdTextPixel vic screen_mem color_mem char_rom x y

/-- Per-sprite state, as extracted by `SpriteInfo.__init__`. -/
structure SpriteInfo where
  num : Nat
  x : Nat
  y : Nat
  enabled : Nat
  y_expand : Nat
  priority : Nat
  multicolor : Nat
  x_expand : Nat
  color : Nat
  data_addr : Nat
  pointer : Nat
deriving DecidableEq

/-- Embedding of `SpriteInfo.__init__`; `none` models the `IndexError`
raised when the register list is too short. -/
def mkSpriteInfo (sprite_num : Nat) (vic_regs : List Nat) (sprite_pointer : Nat)
    (vic_bank : Nat) : Option SpriteInfo :=
  match vic_regs.get? (sprite_num * 2), vic_regs.get? 0x10,
        vic_regs.get? (sprite_num * 2 + 1), vic_regs.get? 0x15,
        vic_regs.get? 0x17, vic_regs.get? 0x1B, vic_regs.get? 0x1C,
        vic_regs.get? 0x1D, vic_regs.get? (0x27 + sprite_num) with
  | some x_low, some r10, some yv, some r15, some r17, some r1B, some r1C,
    some r1D, some rc =>
    some
      { num := sprite_num
        x := x_low + ((r10 >>> sprite_num) &&& 1) * 256
        y := yv
        enabled := (r15 >>> sprite_num) &&& 1
        y_expand := (r17 >>> sprite_num) &&& 1
        priority := (r1B >>> sprite_num) &&& 1
        multicolor := (r1C >>> sprite_num) &&& 1
        x_expand := (r1D >>> sprite_num) &&& 1
        color := rc &&& 0x0F
        data_addr := vic_bank + sprite_pointer * 64
        pointer := sprite_pointer }
  | _, _, _, _, _, _, _, _, _ => none

/-- Embedding of `get_sprite_info`: build the eight `SpriteInfo` records.
Python indexes `sprite_pointers[i]`, which raises on a short pointer
slice; hence the `Option`. -/
def get_sprite_info (vic_regs : List Nat) (sprite_pointers : List Nat)
    (vic_bank : Nat) : Option (List SpriteInfo) :=
  (List.range 8).mapM fun i =>
    match sprite_pointers.get? i with
    | some p => mkSpriteInfo i vic_regs p vic_bank
    | none => none

/-- Per-pixel reading of the sprite image built by `render_sprite`.
The Python loops write each pixel of the `width x height` RGBA buffer at
most once (hi-res: the iteration with `col = px / xf`; multicolor: the
iteration with `col = px / (2 * xf)`); a pixel that is never written
keeps alpha 0, modelled by `none`.  Rows whose 3-byte slice of
`sprite_data` is short are skipped (`if len(row_data) < 3: continue`):
those rows stay transparent. -/
def spritePixel (sp : SpriteInfo) (vic : VICIIState) (sprite_data : List Nat)
    (px py : Nat) : Option Color :=
  let xf := if sp.x_expand ≠ 0 then 2 else 1
  let yf := if sp.y_expand ≠ 0 then 2 else 1
  let row := py / yf
  if 21 ≤ row then none else
  match sprite_data.get? (row * 3), sprite_data.get? (row * 3 + 1),
        sprite_data.get? (row * 3 + 2) with
  | some b0, some b1, some b2 =>
    let bits := (b0 <<< 16) ||| (b1 <<< 8) ||| b2
    if sp.multicolor ≠ 0 then
      let col := px / (2 * xf)
      if 12 ≤ col then none else
      let bit_pair := (bits >>> (22 - col * 2)) &&& 0x03
      if bit_pair = 0 then none
      else if bit_pair = 1 then some (palette vic.sprite_multicolor0)
      else if bit_pair = 2 then some (palette sp.color)
      else some (palette vic.sprite_multicolor1)
    else
      let col := px / xf
      if 24 ≤ col then none else
      if (bits >>> (23 - col)) &&& 1 ≠ 0 then some (palette sp.color) else none
  | _, _, _ => none

/-- Width of the sprite image built by `render_sprite`. -/
def spriteWidth (sp : SpriteInfo) : Nat := 24 * (if sp.x_expand ≠ 0 then 2 else 1)

/-- Height of the sprite image built by `render_sprite`. -/
def spriteHeight (sp : SpriteInfo) : Nat := 21 * (if sp.y_expand ≠ 0 then 2 else 1)

/-- One iteration of the loop body of `overlay_sprites`: skip disabled
sprites, skip `front_only` priority-1 sprites, skip sprites with no data,
then paste the rendered sprite image at `(x - 24, y - 50)` under the
source's partial-overlap guard.  PIL's `paste` with an alpha mask leaves
the base pixel where the sprite is transparent and clips the box to the
screen, which is what the pixel-function form expresses. -/
def pasteSpriteImage (vic : VICIIState) (sp : SpriteInfo) (sprite_data : List Nat)
    (front_only : Bool) (img : Int → Int → Color) : Int → Int → Color :=
  if sp.enabled = 0 then img
  else if front_only ∧ sp.priority = 1 then img
  else
    if (sp.x : Int) - 24 < 320 ∧ (sp.y : Int) - 50 < 200 ∧
       (sp.x : Int) - 24 + (spriteWidth sp : Int) > 0 ∧
       (sp.y : Int) - 50 + (spriteHeight sp : Int) > 0 then
      fun X Y =>
        if (sp.x : Int) - 24 ≤ X ∧ X < (sp.x : Int) - 24 + (spriteWidth sp : Int) ∧
           (sp.y : Int) - 50 ≤ Y ∧ Y < (sp.y : Int) - 50 + (spriteHeight sp : Int) then
          match spritePixel sp vic sprite_data (X - ((sp.x : Int) - 24)).toNat
              (Y - ((sp.y : Int) - 50)).toNat with
          | some c => c
          | none => img X Y
        else img X Y
    else img

/-- Lookup of sprite `i` and its data before the paste; a missing list
entry means the Python loop would have raised, but `overlay_sprites` is
only called with the 8-element lists built earlier. -/
def pasteSpriteStep (vic : VICIIState) (sprites : List SpriteInfo)
    (sprite_data_list : List (Option (List Nat))) (front_only : Bool)
    (img : Int → Int → Color) (i : Nat) : Int → Int → Color :=
  match sprites.get? i, sprite_data_list.get? i with
  | some sp, some (some sprite_data) => pasteSpriteImage vic sp sprite_data front_only img
  | _, _ => img

/-- Embedding of `overlay_sprites`: paste sprites 7, 6, ..., 0 in that
order onto the screen image (`for i in range(7, -1, -1)`). -/
def overlay_sprites (vic : VICIIState) (sprites : List SpriteInfo)
    (sprite_data_list : List (Option (List Nat))) (front_only : Bool)
    (screen_img : Int → Int → Color) : Int → Int → Color :=
  [7, 6, 5, 4, 3, 2, 1, 0].foldl
    (pasteSpriteStep vic sprites sprite_data_list front_only) screen_img

/-- The contribution of sprite `i` at screen position `(X, Y)`: the color
its rendered image shows there, or `none` when the sprite is skipped,
transparent at that position, or does not cover it.  The cover test uses
the screen placement `(x - 24, y - 50)` of `render_sprite`. -/
def spriteContribOne (vic : VICIIState) (sp : SpriteInfo) (sprite_data : List Nat)
    (front_only : Bool) (X Y : Int) : Option Color :=
  if sp.enabled = 0 then none
  else if front_only ∧ sp.priority = 1 then none
  else
    if (sp.x : Int) - 24 ≤ X ∧ X < (sp.x : Int) - 24 + (spriteWidth sp : Int) ∧
       (sp.y : Int) - 50 ≤ Y ∧ Y < (sp.y : Int) - 50 + (spriteHeight sp : Int) then
      spritePixel sp vic sprite_data (X - ((sp.x : Int) - 24)).toNat
        (Y - ((sp.y : Int) - 50)).toNat
    else none

/-- The contribution of sprite `i` of the sprite list at `(X, Y)`. -/
def spriteContrib (vic : VICIIState) (sprites : List SpriteInfo)
    (sprite_data_list : List (Option (List Nat))) (front_only : Bool)
    (X Y : Int) (i : Nat) : Option Color :=
  match sprites.get? i, sprite_data_list.get? i with
  | some sp, some (some sprite_data) => spriteContribOne vic sp sprite_data front_only X Y
  | _, _ => none

/-- Embedding of `check_rom_overlap`. -/
def check_rom_overlap (address length : Nat) :
    Option (String × Nat × Nat × Nat × Nat) :=
  let end_address := address + length - 1
  if address ≤ 0xFFFF ∧ 0xE000 ≤ end_address then
    some ("KERNAL", max address 0xE000, min end_address 0xFFFF, 0xE000, 0x2000)
  else if address ≤ 0xBFFF ∧ 0xA000 ≤ end_address then
    some ("BASIC", max address 0xA000, min end_address 0xBFFF, 0xA000, 0x2000)
  else
    none

/-- Embedding of `generate_copy_stub`.  The byte list is built in exactly
the order of the Python `code.extend` calls; `bytes(code)` raises
`ValueError` when an element is out of byte range (only possible for
`num_pages`), modelled by the final range check returning `none`. -/
def generate_copy_stub (src_addr dst_addr length : Nat) (jmp_target : Option Nat) :
    Option (List Nat) :=
  let num_pages := (length + 255) / 256
  let tail_jump : List Nat :=
    match jmp_target with
    | some j => [0x4C, j &&& 0xFF, (j >>> 8) &&& 0xFF]
    | none =>
      -- loop forever at STUB_ADDR + 58 (the offset of this JMP in the blob)
      [0x4C, (STUB_ADDR + 58) &&& 0xFF, ((STUB_ADDR + 58) >>> 8) &&& 0xFF]
  let code : List Nat :=
    [ 0x48,                          -- PHA - save A
      0x8A,                          -- TXA
      0x48,                          -- PHA - save X
      0x98,                          -- TYA
      0x48,                          -- PHA - save Y
      0xA5, 0x01,                    -- LDA $01
      0x48,                          -- PHA
      0xA9, 0x34,                    -- LDA #$34
      0x85, 0x01,                    -- STA $01
      0xA9, src_addr &&& 0xFF,       -- LDA #<src
      0x85, 0xFB,                    -- STA $FB
      0xA9, (src_addr >>> 8) &&& 0xFF, -- LDA #>src
      0x85, 0xFC,                    -- STA $FC
      0xA9, dst_addr &&& 0xFF,       -- LDA #<dst
      0x85, 0xFD,                    -- STA $FD
      0xA9, (dst_addr >>> 8) &&& 0xFF, -- LDA #>dst
      0x85, 0xFE,                    -- STA $FE
      0xA2, num_pages,               -- LDX #num_pages
      0xA0, 0x00,                    -- LDY #$00
      0xB1, 0xFB,                    -- LDA ($FB),Y
      0x91, 0xFD,                    -- STA ($FD),Y
      0xC8,                          -- INY
      0xD0, 0xF9,                    -- BNE inner_loop
      0xE6, 0xFC,                    -- INC $FC
      0xE6, 0xFE,                    -- INC $FE
      0xCA,                          -- DEX
      0xD0, 0xF0,                    -- BNE outer_loop
      0x68,                          -- PLA
      0x85, 0x01,                    -- STA $01
      0xA9, 0x42,                    -- LDA #$42
      0x85, 0x02,                    -- STA $02
      0x68,                          -- PLA - restore Y
      0xA8,                          -- TAY
      0x68,                          -- PLA - restore X
      0xAA,                          -- TAX
      0x68 ]                         -- PLA - restore A
      ++ tail_jump
  if code.all (· < 256) then some code else none

/-- A decoded 6502 instruction: opcode byte plus operand bytes. -/
structure Insn where
  op : Nat
  args : List Nat
deriving DecidableEq, BEq

/-- Instruction length of the 6502 opcodes the stub emitter uses. -/
def opLen (op : Nat) : Option Nat :=
  if op ∈ [0x48, 0x8A, 0x98, 0xC8, 0xCA, 0x68, 0xA8, 0xAA] then some 1
  else if op ∈ [0xA5, 0xA9, 0x85, 0xA2, 0xA0, 0xB1, 0x91, 0xD0, 0xE6] then some 2
  else if op = 0x4C then some 3
  else none

/-- Fueled linear-sweep disassembler over the opcode table above. -/
def disasmFuel : Nat → List Nat → Option (List Insn)
  | _, [] => some []
  | 0, _ :: _ => none
  | fuel + 1, op :: rest =>
    match opLen op with
    | some 1 => (disasmFuel fuel rest).map (⟨op, []⟩ :: ·)
    | some 2 =>
      match rest with
      | a :: rest2 => (disasmFuel fuel rest2).map (⟨op, [a]⟩ :: ·)
      | [] => none
    | some 3 =>
      match rest with
      | a :: b :: rest2 => (disasmFuel fuel rest2).map (⟨op, [a, b]⟩ :: ·)
      | _ => none
    | _ => none

/-- Linear-sweep disassembly of a machine-code blob. -/
def disasm (code : List Nat) : Option (List Insn) :=
  disasmFuel code.length code

/-- Disassembly of the emitted copy stub. -/
def stubDisasm (src_addr dst_addr length : Nat) (jmp_target : Option Nat) :
    Option (List Insn) :=
  (generate_copy_stub src_addr dst_addr length jmp_target).bind disasm

/-- Number of occurrences of the adjacent instruction pair `(a, b)` in an
instruction list.  The second component is compared first so that the
count is determined even when other instructions carry symbolic operand
bytes (their following instruction decides the mismatch). -/
def countPair (l : List Insn) (a b : Insn) : Nat :=
  (l.zip l.tail).countP fun q => q.2 == b && q.1 == a

/-!
Remote I/O model.  Each method of `Ultimate64API` performs exactly one
HTTP request; the response is supplied by an `Oracle` indexed by the
number of requests issued so far, and the request itself is appended to a
trace.  `pause`/`resume`/`write_memory` return a boolean
(`status_code == 200`, with `write_memory` returning `False` on any
exception); `read_memory` returns the body bytes on 200 and `None`
otherwise.
-/

/-- One remote call as issued by the tool. -/
inductive ApiCall where
  | pause : ApiCall
  | resume : ApiCall
  | read (address length : Nat) : ApiCall
  | write (address : Nat) (data : List Nat) : ApiCall
deriving DecidableEq, BEq

/-- The remote machine's answer to one call. -/
inductive ApiRes where
  | bytes (b : Option (List Nat)) : ApiRes
  | flag (ok : Bool) : ApiRes
deriving DecidableEq

/-- Read-style interpretation of a response. -/
def ApiRes.asBytes : ApiRes → Option (List Nat)
  | .bytes b => b
  | .flag _ => none

/-- Boolean-style interpretation of a response. -/
def ApiRes.asBool : ApiRes → Bool
  | .flag ok => ok
  | .bytes _ => false

/-- Answers of the remote machine, indexed by request number. -/
abbrev Oracle := Nat → ApiRes

/-- The request counter and the trace of issued calls. -/
structure ApiS where
  idx : Nat
  trace : List ApiCall
deriving DecidableEq

/-- `Ultimate64API.pause`. -/
def apiPause (o : Oracle) : ApiS → Bool × ApiS := fun s =>
  ((o s.idx).asBool, ⟨s.idx + 1, s.trace ++ [ApiCall.pause]⟩)

/-- `Ultimate64API.resume`. -/
def apiResume (o : Oracle) : ApiS → Bool × ApiS := fun s =>
  ((o s.idx).asBool, ⟨s.idx + 1, s.trace ++ [ApiCall.resume]⟩)

/-- `Ultimate64API.read_memory`. -/
def apiReadMem (o : Oracle) (address length : Nat) : ApiS → Option (List Nat) × ApiS := fun s =>
  ((o s.idx).asBytes, ⟨s.idx + 1, s.trace ++ [ApiCall.read address length]⟩)

/-- `Ultimate64API.write_memory`. -/
def apiWriteMem (o : Oracle) (address : Nat) (data : List Nat) : ApiS → Bool × ApiS := fun s =>
  ((o s.idx).asBool, ⟨s.idx + 1, s.trace ++ [ApiCall.write address data]⟩)

/-- Restore write used in the cleanup, guarded by Python truthiness
(`if backup:`): skipped when the backup is `None` or empty. -/
def writeIfTruthy (o : Oracle) (address : Nat) (backup : Option (List Nat)) :
    ApiS → Unit × ApiS := fun s =>
  match backup with
  | some b => if b = [] then ((), s) else let p := apiWriteMem o address b s; ((), p.2)
  | none => ((), s)

/-- The `finally` block of `read_memory_via_copy` (step 6, restore all
modified memory).  All write results are ignored, as in the source. -/
def romBypassRestore (o : Oracle) (cia2_timer_backup : Option (List Nat))
    (nmi_vector_backup zp_backup : List Nat) (marker_backup : Option (List Nat))
    (stub_backup buffer_backup : List Nat) : ApiS → Unit × ApiS := fun s =>
  let (_, s) := apiPause o s
  let (_, s) := apiWriteMem o 0xDD0D [0x01] s
  let (_, s) := writeIfTruthy o 0xDD04 cia2_timer_backup s
  let (_, s) := apiWriteMem o 0x0318 nmi_vector_backup s
  let (_, s) := apiWriteMem o 0xFB zp_backup s
  let (_, s) := writeIfTruthy o 0x02 marker_backup s
  let (_, s) := apiWriteMem o STUB_ADDR stub_backup s
  let (_, s) := apiWriteMem o COPY_BUFFER buffer_backup s
  ((), s)

/-- The `try` block of `read_memory_via_copy` (steps 2-5: inject the stub,
redirect the NMI vector, clear the sentinel, arm the CIA2 timer, resume,
wait, re-pause, verify the sentinel, read back the buffer).

Result meaning: `.ok none` models `return None` (a failed step); `.ok
(some data)` the successful buffer read; `.error ()` an uncaught Python
exception.  Two exceptions can arise here: `bytes(code)` in
`generate_copy_stub` (out-of-range byte) and — the interesting one — the
warning f-string `f"...{marker[0] if marker else 'None':02X}..."`, which
raises `ValueError` when `marker` is falsy because the string `'None'`
does not accept the numeric format spec `02X`. -/
def romBypassTry (o : Oracle) (src_addr length original_nmi_handler : Nat) :
    ApiS → Except Unit (Option (List Nat)) × ApiS := fun s =>
  match generate_copy_stub src_addr COPY_BUFFER length (some original_nmi_handler) with
  | none => (.error (), s)
  | some copy_code =>
    match apiWriteMem o STUB_ADDR copy_code s with
    | (false, s) => (.ok none, s)
    | (true, s) =>
      match apiWriteMem o 0x0318 [STUB_ADDR &&& 0xFF, (STUB_ADDR >>> 8) &&& 0xFF] s with
      | (false, s) => (.ok none, s)
      | (true, s) =>
        match apiWriteMem o 0x02 [0x00] s with
        | (false, s) => (.ok none, s)
        | (true, s) =>
          -- acknowledge pending interrupts; results of the timer set-up
          -- calls are ignored by the source
          let (_, s) := apiReadMem o 0xDD0D 1 s
          let (_, s) := apiWriteMem o 0xDD04 [0x02, 0x00] s
          let (_, s) := apiWriteMem o 0xDD0D [0x81] s
          let (_, s) := apiWriteMem o 0xDD0E [0x11] s
          match apiResume o s with
          | (false, s) => (.ok none, s)
          | (true, s) =>
            -- time.sleep(0.5) issues no request
            let (_, s) := apiPause o s
            match apiReadMem o 0x02 1 s with
            | (some (_m :: _), s) =>
              -- marker truthy: both the `== 0x42` branch and the warning
              -- branch only print, then fall through to the buffer read
              let (copied_data, s) := apiReadMem o COPY_BUFFER length s
              (.ok copied_data, s)
            | (_, s) =>
              -- marker is None or empty: ValueError in the warning f-string
              (.error (), s)

/-- Embedding of `read_memory_via_copy`.  Step 1 backups happen before
the `try`, so a failed mandatory backup returns `None` without entering
the cleanup; the `marker`, CIA2 ICR and CIA2 timer backups are taken
without a failure check.  Reading `nmi_vector_backup[0]`/`[1]` on a
too-short vector raises `IndexError` (modelled `.error ()`), also before
the `try`. -/
def read_memory_via_copy (o : Oracle) (src_addr length : Nat) :
    ApiS → Except Unit (Option (List Nat)) × ApiS := fun s =>
  match apiReadMem o STUB_ADDR 128 s with
  | (none, s) => (.ok none, s)
  | (some stub_backup, s) =>
    match apiReadMem o COPY_BUFFER length s with
    | (none, s) => (.ok none, s)
    | (some buffer_backup, s) =>
      match apiReadMem o 0xFB 4 s with
      | (none, s) => (.ok none, s)
      | (some zp_backup, s) =>
        let (marker_backup, s) := apiReadMem o 0x02 1 s
        match apiReadMem o 0x0318 2 s with
        | (none, s) => (.ok none, s)
        | (some nmi_vector_backup, s) =>
          match nmi_vector_backup.get? 0, nmi_vector_backup.get? 1 with
          | some n0, some n1 =>
            let original_nmi_handler := n0 + (n1 <<< 8)
            let (_cia2_icr_backup, s) := apiReadMem o 0xDD0D 1 s
            let (cia2_timer_backup, s) := apiReadMem o 0xDD04 3 s
            let (r, s) := romBypassTry o src_addr length original_nmi_handler s
            let (_, s) := romBypassRestore o cia2_timer_backup nmi_vector_backup
              zp_backup marker_backup stub_backup buffer_backup s
            (r, s)
          | _, _ => (.error (), s)

/-- Embedding of `read_memory_smart`. -/
def read_memory_smart (o : Oracle) (address length : Nat) :
    ApiS → Except Unit (Option (List Nat)) × ApiS := fun s =>
  match check_rom_overlap address length with
  | none => let p := apiReadMem o address length s; (.ok p.1, p.2)
  | some _ => read_memory_via_copy o address length s

/-- Write the bytes `bs` into `cs` starting at offset `off`
(`for i, byte in enumerate(pattern): charset[offset + i] = byte`). -/
def setBytes (cs : List Nat) (off : Nat) (bs : List Nat) : List Nat :=
  (bs.foldl (fun (p : List Nat × Nat) b => (p.1.set p.2 b, p.2 + 1)) (cs, off)).1

/-- The character patterns of `get_embedded_charset` (screen codes 0-127,
8 bytes each). -/
def embeddedChars : List (Nat × List Nat) :=
  [ (0, [0x3C, 0x66, 0x6E, 0x6E, 0x60, 0x62, 0x3C, 0x00]),
    (1, [0x18, 0x3C, 0x66, 0x7E, 0x66, 0x66, 0x66, 0x00]),
    (2, [0x7C, 0x66, 0x66, 0x7C, 0x66, 0x66, 0x7C, 0x00]),
    (3, [0x3C, 0x66, 0x60, 0x60, 0x60, 0x66, 0x3C, 0x00]),
    (4, [0x78, 0x6C, 0x66, 0x66, 0x66, 0x6C, 0x78, 0x00]),
    (5, [0x7E, 0x60, 0x60, 0x78, 0x60, 0x60, 0x7E, 0x00]),
    (6, [0x7E, 0x60, 0x60, 0x78, 0x60, 0x60, 0x60, 0x00]),
    (7, [0x3C, 0x66, 0x60, 0x6E, 0x66, 0x66, 0x3C, 0x00]),
    (8, [0x66, 0x66, 0x66, 0x7E, 0x66, 0x66, 0x66, 0x00]),
    (9, [0x3C, 0x18, 0x18, 0x18, 0x18, 0x18, 0x3C, 0x00]),
    (10, [0x1E, 0x0C, 0x0C, 0x0C, 0x0C, 0x6C, 0x38, 0x00]),
    (11, [0x66, 0x6C, 0x78, 0x70, 0x78, 0x6C, 0x66, 0x00]),
    (12, [0x60, 0x60, 0x60, 0x60, 0x60, 0x60, 0x7E, 0x00]),
    (13, [0x63, 0x77, 0x7F, 0x6B, 0x63, 0x63, 0x63, 0x00]),
    (14, [0x66, 0x76, 0x7E, 0x7E, 0x6E, 0x66, 0x66, 0x00]),
    (15, [0x3C, 0x66, 0x66, 0x66, 0x66, 0x66, 0x3C, 0x00]),
    (16, [0x7C, 0x66, 0x66, 0x7C, 0x60, 0x60, 0x60, 0x00]),
    (17, [0x3C, 0x66, 0x66, 0x66, 0x66, 0x3C, 0x0E, 0x00]),
    (18, [0x7C, 0x66, 0x66, 0x7C, 0x78, 0x6C, 0x66, 0x00]),
    (19, [0x3C, 0x66, 0x60, 0x3C, 0x06, 0x66, 0x3C, 0x00]),
    (20, [0x7E, 0x18, 0x18, 0x18, 0x18, 0x18, 0x18, 0x00]),
    (21, [0x66, 0x66, 0x66, 0x66, 0x66, 0x66, 0x3C, 0x00]),
    (22, [0x66, 0x66, 0x66, 0x66, 0x66, 0x3C, 0x18, 0x00]),
    (23, [0x63, 0x63, 0x63, 0x6B, 0x7F, 0x77, 0x63, 0x00]),
    (24, [0x66, 0x66, 0x3C, 0x18, 0x3C, 0x66, 0x66, 0x00]),
    (25, [0x66, 0x66, 0x66, 0x3C, 0x18, 0x18, 0x18, 0x00]),
    (26, [0x7E, 0x06, 0x0C, 0x18, 0x30, 0x60, 0x7E, 0x00]),
    (27, [0x3C, 0x30, 0x30, 0x30, 0x30, 0x30, 0x3C, 0x00]),
    (28, [0x0C, 0x12, 0x30, 0x7C, 0x30, 0x62, 0xFC, 0x00]),
    (29, [0x3C, 0x0C, 0x0C, 0x0C, 0x0C, 0x0C, 0x3C, 0x00]),
    (30, [0x00, 0x08, 0x1C, 0x3E, 0x08, 0x08, 0x00, 0x00]),
    (31, [0x00, 0x10, 0x30, 0x7F, 0x30, 0x10, 0x00, 0x00]),
    (32, [0x00, 0x00, 0x00, 0x00, 0x00, 0x00, 0x00, 0x00]),
    (33, [0x18, 0x18, 0x18, 0x18, 0x00, 0x00, 0x18, 0x00]),
    (34, [0x66, 0x66, 0x66, 0x00, 0x00, 0x00, 0x00, 0x00]),
    (35, [0x66, 0x66, 0xFF, 0x66, 0xFF, 0x66, 0x66, 0x00]),
    (36, [0x18, 0x3E, 0x60, 0x3C, 0x06, 0x7C, 0x18, 0x00]),
    (37, [0x62, 0x66, 0x0C, 0x18, 0x30, 0x66, 0x46, 0x00]),
    (38, [0x3C, 0x66, 0x3C, 0x38, 0x67, 0x66, 0x3F, 0x00]),
    (39, [0x06, 0x0C, 0x18, 0x00, 0x00, 0x00, 0x00, 0x00]),
    (40, [0x0C, 0x18, 0x30, 0x30, 0x30, 0x18, 0x0C, 0x00]),
    (41, [0x30, 0x18, 0x0C, 0x0C, 0x0C, 0x18, 0x30, 0x00]),
    (42, [0x00, 0x66, 0x3C, 0xFF, 0x3C, 0x66, 0x00, 0x00]),
    (43, [0x00, 0x18, 0x18, 0x7E, 0x18, 0x18, 0x00, 0x00]),
    (44, [0x00, 0x00, 0x00, 0x00, 0x00, 0x18, 0x18, 0x30]),
    (45, [0x00, 0x00, 0x00, 0x7E, 0x00, 0x00, 0x00, 0x00]),
    (46, [0x00, 0x00, 0x00, 0x00, 0x00, 0x18, 0x18, 0x00]),
    (47, [0x00, 0x03, 0x06, 0x0C, 0x18, 0x30, 0x60, 0x00]),
    (48, [0x3C, 0x66, 0x6E, 0x76, 0x66, 0x66, 0x3C, 0x00]),
    (49, [0x18, 0x18, 0x38, 0x18, 0x18, 0x18, 0x7E, 0x00]),
    (50, [0x3C, 0x66, 0x06, 0x0C, 0x30, 0x60, 0x7E, 0x00]),
    (51, [0x3C, 0x66, 0x06, 0x1C, 0x06, 0x66, 0x3C, 0x00]),
    (52, [0x06, 0x0E, 0x1E, 0x66, 0x7F, 0x06, 0x06, 0x00]),
    (53, [0x7E, 0x60, 0x7C, 0x06, 0x06, 0x66, 0x3C, 0x00]),
    (54, [0x3C, 0x66, 0x60, 0x7C, 0x66, 0x66, 0x3C, 0x00]),
    (55, [0x7E, 0x66, 0x0C, 0x18, 0x18, 0x18, 0x18, 0x00]),
    (56, [0x3C, 0x66, 0x66, 0x3C, 0x66, 0x66, 0x3C, 0x00]),
    (57, [0x3C, 0x66, 0x66, 0x3E, 0x06, 0x66, 0x3C, 0x00]),
    (58, [0x00, 0x00, 0x18, 0x00, 0x00, 0x18, 0x00, 0x00]),
    (59, [0x00, 0x00, 0x18, 0x00, 0x00, 0x18, 0x18, 0x30]),
    (60, [0x0E, 0x18, 0x30, 0x60, 0x30, 0x18, 0x0E, 0x00]),
    (61, [0x00, 0x00, 0x7E, 0x00, 0x7E, 0x00, 0x00, 0x00]),
    (62, [0x70, 0x18, 0x0C, 0x06, 0x0C, 0x18, 0x70, 0x00]),
    (63, [0x3C, 0x66, 0x06, 0x0C, 0x18, 0x00, 0x18, 0x00]),
    (64, [0x00, 0x00, 0x00, 0xFF, 0xFF, 0x00, 0x00, 0x00]),
    (65, [0x08, 0x1C, 0x3E, 0x7F, 0x7F, 0x1C, 0x3E, 0x00]),
    (66, [0x18, 0x18, 0x18, 0x18, 0x18, 0x18, 0x18, 0x18]),
    (67, [0x00, 0x00, 0x00, 0x00, 0xFF, 0xFF, 0xFF, 0xFF]),
    (68, [0xFF, 0xFF, 0xFF, 0xFF, 0x00, 0x00, 0x00, 0x00]),
    (69, [0xF0, 0xF0, 0xF0, 0xF0, 0xF0, 0xF0, 0xF0, 0xF0]),
    (70, [0x55, 0xAA, 0x55, 0xAA, 0x55, 0xAA, 0x55, 0xAA]),
    (71, [0x0F, 0x0F, 0x0F, 0x0F, 0x0F, 0x0F, 0x0F, 0x0F]),
    (72, [0x00, 0x00, 0x00, 0x00, 0xAA, 0x55, 0xAA, 0x55]),
    (73, [0x0F, 0x07, 0x03, 0x01, 0x00, 0x00, 0x00, 0x00]),
    (74, [0x55, 0xAA, 0x55, 0xAA, 0x00, 0x00, 0x00, 0x00]),
    (75, [0x00, 0x00, 0x00, 0x00, 0x01, 0x03, 0x07, 0x0F]),
    (76, [0x00, 0x00, 0x00, 0x00, 0x80, 0xC0, 0xE0, 0xF0]),
    (77, [0xF0, 0xE0, 0xC0, 0x80, 0x00, 0x00, 0x00, 0x00]),
    (78, [0x01, 0x03, 0x07, 0x0F, 0x1F, 0x3F, 0x7F, 0xFF]),
    (79, [0x80, 0xC0, 0xE0, 0xF0, 0xF8, 0xFC, 0xFE, 0xFF]),
    (80, [0xFF, 0xFE, 0xFC, 0xF8, 0xF0, 0xE0, 0xC0, 0x80]),
    (81, [0xFF, 0xFF, 0xFF, 0xFF, 0xFF, 0xFF, 0xFF, 0xFF]),
    (82, [0xFF, 0x7F, 0x3F, 0x1F, 0x0F, 0x07, 0x03, 0x01]),
    (83, [0x3C, 0x7E, 0xFF, 0xFF, 0xFF, 0xFF, 0x7E, 0x3C]),
    (84, [0xC0, 0xC0, 0xC0, 0xC0, 0xC0, 0xC0, 0xC0, 0xC0]),
    (85, [0x18, 0x18, 0x7E, 0xFF, 0xFF, 0x18, 0x3C, 0x00]),
    (86, [0x00, 0x00, 0x00, 0x00, 0xF0, 0xF0, 0xF0, 0xF0]),
    (87, [0x0F, 0x0F, 0x0F, 0x0F, 0x00, 0x00, 0x00, 0x00]),
    (88, [0x00, 0x00, 0x00, 0x00, 0x0F, 0x0F, 0x0F, 0x0F]),
    (89, [0xF8, 0xF0, 0xE0, 0xC0, 0x80, 0x00, 0x00, 0x00]),
    (90, [0xF0, 0xF0, 0xF0, 0xF0, 0x00, 0x00, 0x00, 0x00]),
    (91, [0x00, 0x66, 0xFF, 0xFF, 0xFF, 0x7E, 0x3C, 0x18]),
    (92, [0x00, 0x00, 0x00, 0x80, 0xC0, 0xE0, 0xF0, 0xF8]),
    (93, [0x18, 0x18, 0x18, 0xFF, 0xFF, 0x18, 0x18, 0x18]),
    (94, [0x00, 0x3C, 0x42, 0x42, 0x42, 0x42, 0x3C, 0x00]),
    (95, [0x18, 0x3C, 0x7E, 0xFF, 0x7E, 0x3C, 0x18, 0x00]),
    (96, [0x00, 0x00, 0x00, 0x01, 0x03, 0x07, 0x0F, 0x1F]),
    (97, [0x1F, 0x0F, 0x07, 0x03, 0x01, 0x00, 0x00, 0x00]),
    (98, [0x00, 0x00, 0x7F, 0x36, 0x36, 0x36, 0x63, 0x00]),
    (99, [0xFF, 0x00, 0x00, 0x00, 0xFF, 0xFF, 0xFF, 0xFF]),
    (100, [0x03, 0x03, 0x03, 0x03, 0x03, 0x03, 0x03, 0x03]),
    (101, [0xC0, 0x60, 0x30, 0x18, 0x0C, 0x06, 0x03, 0x01]),
    (102, [0xAA, 0xAA, 0xAA, 0xAA, 0xAA, 0xAA, 0xAA, 0xAA]),
    (103, [0x01, 0x03, 0x06, 0x0C, 0x18, 0x30, 0x60, 0xC0]),
    (104, [0x00, 0x00, 0x00, 0x00, 0xC0, 0xC0, 0xC0, 0xC0]),
    (105, [0xFF, 0x00, 0xFF, 0x00, 0xFF, 0x00, 0xFF, 0x00]),
    (106, [0x00, 0x00, 0x00, 0x00, 0x03, 0x03, 0x03, 0x03]),
    (107, [0xC0, 0xC0, 0xC0, 0xC0, 0x00, 0x00, 0x00, 0x00]),
    (108, [0x03, 0x03, 0x03, 0x03, 0x00, 0x00, 0x00, 0x00]),
    (109, [0x00, 0x00, 0x00, 0xFF, 0xFF, 0x18, 0x18, 0x18]),
    (110, [0x18, 0x18, 0x18, 0xFF, 0xFF, 0x00, 0x00, 0x00]),
    (111, [0x18, 0x18, 0x18, 0x1F, 0x1F, 0x18, 0x18, 0x18]),
    (112, [0x18, 0x18, 0x18, 0xF8, 0xF8, 0x00, 0x00, 0x00]),
    (113, [0x00, 0x00, 0x00, 0xF8, 0xF8, 0x18, 0x18, 0x18]),
    (114, [0x00, 0x00, 0x00, 0x1F, 0x1F, 0x18, 0x18, 0x18]),
    (115, [0x18, 0x18, 0x18, 0x1F, 0x1F, 0x00, 0x00, 0x00]),
    (116, [0x18, 0x18, 0x18, 0xF8, 0xF8, 0x18, 0x18, 0x18]),
    (117, [0x18, 0x18, 0x18, 0xFF, 0xFF, 0x18, 0x18, 0x18]),
    (118, [0x3C, 0x3C, 0x3C, 0x3C, 0x3C, 0x3C, 0x3C, 0x3C]),
    (119, [0x00, 0x00, 0xFF, 0xFF, 0xFF, 0xFF, 0x00, 0x00]),
    (120, [0x00, 0x00, 0x00, 0x00, 0x3C, 0x3C, 0x3C, 0x3C]),
    (121, [0x3C, 0x3C, 0x3C, 0x3C, 0x00, 0x00, 0x00, 0x00]),
    (122, [0x00, 0x00, 0x00, 0x00, 0x3C, 0x3C, 0x3C, 0x3C]),
    (123, [0x3C, 0x3C, 0x3C, 0x3C, 0x00, 0x00, 0x00, 0x00]),
    (124, [0x00, 0x00, 0xFC, 0xFC, 0x3C, 0x3C, 0x3C, 0x3C]),
    (125, [0x3C, 0x3C, 0x3C, 0x3C, 0x3F, 0x3F, 0x00, 0x00]),
    (126, [0x00, 0x7E, 0x66, 0x66, 0x66, 0x66, 0x00, 0x00]),
    (127, [0x08, 0x1C, 0x3E, 0x7F, 0x3E, 0x1C, 0x08, 0x00]) ]

/-- Embedding of `get_embedded_charset`: fill a 2048-byte array from the
pattern table (all offsets lie below 1024), then copy bytes 0-1023 to
bytes 1024-2047. -/
def get_embedded_charset : List Nat :=
  let charset := List.replicate 2048 0
  let charset := embeddedChars.foldl
    (fun cs p => if p.1 < 128 then setBytes cs (p.1 * 8) p.2 else cs) charset
  charset.take 1024 ++ charset.take 1024

/-- Whole-image success of the renderer dispatch: `true` means no memory
access in the Python rendering loops raises, i.e. every pixel evaluates.
The source passes `None` for the window a mode does not use; misusing it
would be a `TypeError`, and `getD []` makes every access of that window
fail, which likewise yields `false` (an exception). -/
def renderOk (vic : VICIIState) (bitmap_mem char_rom : Option (List Nat))
    (screen_mem color_mem : List Nat) : Bool :=
  (List.range 200).all fun y => (List.range 320).all fun x =>
    (renderDispatchPixel vic (bitmap_mem.getD []) screen_mem color_mem
      (char_rom.getD []) x y).isSome

/-- The mode-dependent data reads of `capture_screenshot` (bitmap memory
for bitmap modes; character memory or the embedded character set for
text/ECM modes).  Result: `.ok (some (bitmap_mem, char_rom))` on success,
`.ok none` for `return False`, `.error ()` for an uncaught exception. -/
def readModeData (o : Oracle) (use_rom_bypass : Bool) (vic : VICIIState) :
    ApiS → Except Unit (Option (Option (List Nat) × Option (List Nat))) × ApiS := fun s =>
  if vic.bmm ≠ 0 then
    match (if use_rom_bypass then read_memory_smart o vic.bitmap_mem_addr 8000 s
           else let p := apiReadMem o vic.bitmap_mem_addr 8000 s; (.ok p.1, p.2)) with
    | (.error e, s) => (.error e, s)
    | (.ok none, s) => (.ok none, s)
    | (.ok (some bitmap_mem), s) => (.ok (some (some bitmap_mem, none)), s)
  else
    let uses_char_rom := (vic.vic_bank = 0x0000 ∨ vic.vic_bank = 0x8000) ∧
      0x1000 ≤ vic.char_mem_offset ∧ vic.char_mem_offset < 0x2000
    if uses_char_rom then
      (.ok (some (none, some get_embedded_charset)), s)
    else
      match (if use_rom_bypass then read_memory_smart o vic.char_mem_addr 2048 s
             else let p := apiReadMem o vic.char_mem_addr 2048 s; (.ok p.1, p.2)) with
      | (.error e, s) => (.error e, s)
      | (.ok none, s) => (.ok none, s)
      | (.ok (some char_rom), s) => (.ok (some (none, some char_rom)), s)

/-- The sprite-data read loop of `capture_screenshot`: enabled sprites are
read (64 bytes at `data_addr`), disabled ones contribute `None`. -/
def readSpriteData (o : Oracle) : List SpriteInfo → ApiS → List (Option (List Nat)) × ApiS
  | [], s => ([], s)
  | sp :: rest, s =>
    let (d, s) := if sp.enabled ≠ 0 then apiReadMem o sp.data_addr 64 s else (none, s)
    let (ds, s) := readSpriteData o rest s
    (d :: ds, s)

/-- The body of the `try` block of `capture_screenshot`: read registers,
decode the VIC state, read color RAM, the screen matrix and the
mode-dependent data, render, and process sprites.  `.ok false` models
`return False`, `.ok true` the successful save, `.error ()` an uncaught
exception.  The post-render image operations (`overlay_sprites`,
RSEL/CSEL blanking, `add_border`, upscaling, `img.save`) issue no remote
calls and cannot raise after their inputs exist, so they do not change
the result. -/
def captureBody (o : Oracle) (include_sprites use_rom_bypass : Bool) :
    ApiS → Except Unit Bool × ApiS := fun s =>
  match apiReadMem o 0xD000 0x30 s with
  | (none, s) => (.ok false, s)
  | (some vic_regs, s) =>
    match apiReadMem o 0xDD00 1 s with
    | (none, s) => (.ok false, s)
    | (some cia2_data, s) =>
      match cia2_data.get? 0 with
      | none => (.error (), s)
      | some c0 =>
        match mkVICIIState vic_regs c0 with
        | none => (.error (), s)
        | some vic =>
          match apiReadMem o 0xD800 1000 s with
          | (none, s) => (.ok false, s)
          | (some color_mem, s) =>
            match (if use_rom_bypass then read_memory_smart o vic.screen_mem_addr 1024 s
                   else let p := apiReadMem o vic.screen_mem_addr 1024 s; (.ok p.1, p.2)) with
            | (.error e, s) => (.error e, s)
            | (.ok none, s) => (.ok false, s)
            | (.ok (some screen_mem), s) =>
              match readModeData o use_rom_bypass vic s with
              | (.error e, s) => (.error e, s)
              | (.ok none, s) => (.ok false, s)
              | (.ok (some (bitmap_mem, char_rom)), s) =>
                if renderOk vic bitmap_mem char_rom screen_mem color_mem then
                  if include_sprites then
                    let sprite_pointers := (screen_mem.drop 0x3F8).take 8
                    match get_sprite_info vic_regs sprite_pointers vic.vic_bank with
                    | none => (.error (), s)
                    | some sprites =>
                      let (_, s) := readSpriteData o sprites s
                      (.ok true, s)
                  else (.ok true, s)
                else (.error (), s)

/-- Embedding of `capture_screenshot`.  The machine is paused (the result
only produces a warning), the body runs inside `try`, and the `finally`
block issues `resume()` on every exit path, printing but otherwise
ignoring its result.  `add_border_flag` and `upscale` only affect the
image post-processing, which issues no remote calls. -/
def capture_screenshot (o : Oracle) (_add_border_flag : Bool)
    (include_sprites : Bool) (_upscale : Int) (use_rom_bypass : Bool) :
    ApiS → Except Unit Bool × ApiS := fun s =>
  let s1 := (apiPause o s).2
  let br := captureBody o include_sprites use_rom_bypass s1
  let s3 := (apiResume o br.2).2
  (br.1, s3)

/-!
HTTP request descriptors.  Each `Ultimate64API` method builds one
`requests` call; the descriptor records the method, the URL and the
`timeout` keyword argument passed to `requests` (absent means `none`:
the `requests` library then waits indefinitely).  Query parameters,
headers and the body do not bear on the properties below and are elided.
-/

/-- An HTTP request as issued by `requests.put` / `get` / `post`. -/
structure HttpRequest where
  method : String
  url : String
  timeout : Option Nat
deriving DecidableEq

/-- The request issued by `Ultimate64API.pause` (no `timeout=` argument). -/
def pause_request (base_url : String) : HttpRequest :=
  { method := "PUT", url := base_url ++ "/v1/machine:pause", timeout := none }

/-- The request issued by `Ultimate64API.resume` (no `timeout=` argument). -/
def resume_request (base_url : String) : HttpRequest :=
  { method := "PUT", url := base_url ++ "/v1/machine:resume", timeout := none }

/-- The request issued by `Ultimate64API.read_memory` (no `timeout=`
argument; `address` and `length` travel as query parameters). -/
def readmem_request (base_url : String) (_address _length : Nat) : HttpRequest :=
  { method := "GET", url := base_url ++ "/v1/machine:readmem", timeout := none }

/-- The request issued by `Ultimate64API.write_memory` (`timeout=5`). -/
def writemem_request (base_url : String) (_address : Nat) (_data : List Nat) : HttpRequest :=
  { method := "POST", url := base_url ++ "/v1/machine:writemem", timeout := some 5 }

/-!
CLI argument handling (`main`).  String scanning is done on the
character lists underlying Lean strings so that everything reduces in the
kernel; the helpers mirror the Python string operations used by `main`.
-/

/-- Value of a run of decimal digits possibly grouped by single
underscores, as accepted by Python `int()` after sign stripping:
`prevDigit` records whether the previous character was a digit (an
underscore must be preceded and followed by a digit). -/
def pyDigitsVal (prevDigit : Bool) (acc : Nat) : List Char → Option Nat
  | [] => if prevDigit then some acc else none
  | c :: rest =>
    if c.isDigit then pyDigitsVal true (acc * 10 + (c.toNat - '0'.toNat)) rest
    else if c = '_' then
      if prevDigit then
        match rest with
        | [] => none
        | d :: _ => if d.isDigit then pyDigitsVal false acc rest else none
      else none
    else none

/-- Strip leading and trailing whitespace from a character list. -/
def trimChars (cs : List Char) : List Char :=
  ((cs.dropWhile Char.isWhitespace).reverse.dropWhile Char.isWhitespace).reverse

/-- Embedding of Python `int(s)` for base-10 string arguments: strip
whitespace, take an optional sign, then parse underscore-grouped decimal
digits.  (Non-ASCII digit support of CPython is not modelled.) -/
def pyInt? (s : String) : Option Int :=
  let t := trimChars s.data
  match t with
  | '-' :: rest => (pyDigitsVal false 0 rest).map fun v => -(v : Int)
  | '+' :: rest => (pyDigitsVal false 0 rest).map fun v => (v : Int)
  | _ => (pyDigitsVal false 0 t).map fun v => (v : Int)

/-- Embedding of Python `str.startswith`. -/
def pyStartsWith (s p : String) : Bool :=
  p.data.isPrefixOf s.data

/-- Split a character list at the first occurrence of `c`. -/
def splitFirst (c : Char) : List Char → Option (List Char × List Char)
  | [] => none
  | x :: xs =>
    if x = c then some ([], xs)
    else (splitFirst c xs).map fun p => (x :: p.1, p.2)

/-- Embedding of Python `s.split(sep, 1)` for a one-character separator,
returning the two pieces, or `none` when the separator does not occur
(in which case Python's `split(...)[1]` would raise `IndexError`). -/
def pySplitOnce (c : Char) (s : String) : Option (String × String) :=
  (splitFirst c s.data).map fun p => (String.mk p.1, String.mk p.2)

/-- Configuration accumulated by the option loop of `main`. -/
structure CliConfig where
  output_file : String
  add_border_flag : Bool
  password : Option String
  include_sprites : Bool
  upscale : Int
  use_rom_bypass : Bool
deriving DecidableEq

/-- The defaults `main` starts from. -/
def defaultCliConfig : CliConfig :=
  { output_file := "screenshot.png", add_border_flag := true, password := none,
    include_sprites := true, upscale := 1, use_rom_bypass := true }

/-- The option loop of `main` (`for arg in sys.argv[2:]`).  `.error 1`
models `sys.exit(1)` from inside the loop. -/
def processArgs : List String → CliConfig → Except Nat CliConfig
  | [], cfg => .ok cfg
  | arg :: rest, cfg =>
    if arg = "--no-border" then processArgs rest { cfg with add_border_flag := false }
    else if arg = "--nosprites" then processArgs rest { cfg with include_sprites := false }
    else if arg = "--no-rom-bypass" then processArgs rest { cfg with use_rom_bypass := false }
    else if pyStartsWith arg "--upscale=" then
      match pySplitOnce '=' arg with
      | some (_, v) =>
        match pyInt? v with
        | some n => processArgs rest { cfg with upscale := if n < 1 then 1 else n }
        | none => .error 1
      | none => .error 1
    else if pyStartsWith arg "--password=" then
      match pySplitOnce '=' arg with
      | some (_, v) => processArgs rest { cfg with password := some v }
      | none => .error 1
    else if pyStartsWith arg "--" then .error 1
    else processArgs rest { cfg with output_file := arg }

/-- The extension computed by `main`:
`output_file[output_file.rfind('.'):].lower() if '.' in output_file else ''`. -/
def fileExt (f : String) : String :=
  if f.data.contains '.' then
    String.mk (('.' :: (f.data.reverse.takeWhile (fun c => c ≠ '.')).reverse).map Char.toLower)
  else ""

/-- The accepted output extensions of `main`. -/
def valid_extensions : List String :=
  [".png", ".jpg", ".jpeg", ".bmp", ".gif", ".tiff"]

/-- Embedding of `main`.  `argv` is the full `sys.argv` (program name
first).  `.ok code` models `sys.exit(code)`; `.error ()` models an
uncaught exception escaping `capture_screenshot` (the interpreter then
terminates with a traceback, without reaching `sys.exit`). -/
def pymain (argv : List String) (o : Oracle) : Except Unit Nat :=
  if argv.length < 2 ∨ "--help" ∈ argv ∨ "-h" ∈ argv then
    .ok (if "--help" ∈ argv ∨ "-h" ∈ argv then 0 else 1)
  else
    -- sys.argv[1] (the IP address) only feeds the request URLs, which the
    -- oracle stands in for; the option loop runs over sys.argv[2:]
    match processArgs (argv.drop 2) defaultCliConfig with
    | .error code => .ok code
    | .ok cfg =>
      if valid_extensions.contains (fileExt cfg.output_file) then
        match capture_screenshot o cfg.add_border_flag cfg.include_sprites
          cfg.upscale cfg.use_rom_bypass ⟨0, []⟩ with
        | (.ok true, _) => .ok 0
        | (.ok false, _) => .ok 1
        | (.error e, _) => .error e
      else .ok 1

/-!
Theorems for the claims.
-/

/-- C1: for every capture run (every oracle and flag combination) the
machine pause is issued and then, whatever the body does — succeed
(`.ok true`), fail a step (`.ok false`) or raise (`.error ()`) — the last
remote call of the run is the `resume()` of the `finally` block. -/
theorem capture_screenshot_always_resumes (o : Oracle) (add_border_flag include_sprites : Bool)
    (upscale : Int) (use_rom_bypass : Bool) (s : ApiS) :
    ((capture_screenshot o add_border_flag include_sprites upscale use_rom_bypass s).2.trace).getLast?
      = some ApiCall.resume := by
  simp only [capture_screenshot, apiResume]
  exact List.getLast?_concat _

/-- C9 counterexample: the request issued by `pause` carries no timeout at
all, refuting the claim that every remote request has a timeout of at
least 5 seconds. -/
theorem pause_request_no_timeout :
    ¬ ∃ t, (pause_request "http://192.168.1.100").timeout = some t ∧ 5 ≤ t := by
  rintro ⟨t, h, -⟩
  simp [pause_request] at h

/-- C9 (amended): only `write_memory` passes a timeout (5 seconds);
`pause`, `resume` and `read_memory` issue their requests with no timeout,
so an unresponsive Ultimate 64 can hang those calls indefinitely. -/
theorem request_timeouts (base_url : String) (address length : Nat) (data : List Nat) :
    (pause_request base_url).timeout = none ∧
    (resume_request base_url).timeout = none ∧
    (readmem_request base_url address length).timeout = none ∧
    (writemem_request base_url address data).timeout = some 5 :=
  ⟨rfl, rfl, rfl, rfl⟩

/-- Oracle for the C7 evaluation: all backups, injections and the resume
succeed; the post-copy sentinel read (request 16) fails. -/
def oracleSentinelFail : Oracle := fun n =>
  match n with
  | 0 => .bytes (some (List.replicate 128 0))   -- stub backup
  | 1 => .bytes (some (List.replicate 256 0))   -- buffer backup
  | 2 => .bytes (some [0, 0, 0, 0])             -- zero page backup
  | 3 => .bytes (some [0])                      -- sentinel backup
  | 4 => .bytes (some [0x47, 0xFE])             -- NMI vector backup
  | 5 => .bytes (some [0])                      -- CIA2 ICR backup
  | 6 => .bytes (some [0, 0, 0])                -- CIA2 timer backup
  | 10 => .bytes (some [0])                     -- ICR acknowledge read
  | 16 => .bytes none                           -- sentinel verify read FAILS
  | _ => .flag true                             -- writes / resume / pause succeed

/-- C7: evaluation of `read_memory_via_copy` at the failing input where
the sentinel verification read returns `None`.  The warning f-string
formats the string `'None'` with the numeric spec `02X` and raises
`ValueError` (`.error ()`), and the buffer at $4000 is never read again
after its backup (read count 1), contradicting the claim that a sentinel
read failure is merely logged before the buffer is read and returned.
The `finally` restore still runs. -/
theorem sentinel_read_failure_aborts :
    (read_memory_via_copy oracleSentinelFail 0xE000 256 ⟨0, []⟩).1 = .error () ∧
    ((read_memory_via_copy oracleSentinelFail 0xE000 256 ⟨0, []⟩).2.trace.count
      (ApiCall.read COPY_BUFFER 256)) = 1 ∧
    ((read_memory_via_copy oracleSentinelFail 0xE000 256 ⟨0, []⟩).2.trace.count
      (ApiCall.write STUB_ADDR (List.replicate 128 0))) = 1 :=
  ⟨rfl, rfl, rfl⟩

/-- Is a recorded call a `write`? -/
def isWriteCall : ApiCall → Bool
  | .write _ _ => true
  | _ => false

/-- Oracle for the C2 counterexample: the sentinel ($02) backup read
(request 3) fails; every other request succeeds. -/
def oracleMarkerBackupFail : Oracle := fun n =>
  match n with
  | 0 => .bytes (some (List.replicate 128 0))   -- stub backup
  | 1 => .bytes (some (List.replicate 256 0))   -- buffer backup
  | 2 => .bytes (some [0, 0, 0, 0])             -- zero page backup
  | 3 => .bytes none                            -- sentinel backup FAILS
  | 4 => .bytes (some [0x47, 0xFE])             -- NMI vector backup
  | 5 => .bytes (some [0])                      -- CIA2 ICR backup
  | 6 => .bytes (some [0, 0, 0])                -- CIA2 timer backup
  | 10 => .bytes (some [0])                     -- ICR acknowledge read
  | 16 => .bytes (some [0x42])                  -- sentinel verify read
  | 17 => .bytes (some (List.replicate 256 0))  -- buffer read-back
  | _ => .flag true                             -- writes / resume / pause succeed

/-- C2 counterexample: the backup read of the sentinel at $02 fails, yet
the orchestrator does not abort — it goes on to write to the machine
(the trace contains writes) and returns the copied buffer. -/
theorem marker_backup_failure_still_writes :
    (oracleMarkerBackupFail 3).asBytes = none ∧
    ((read_memory_via_copy oracleMarkerBackupFail 0xE000 256 ⟨0, []⟩).2.trace.any
      isWriteCall) = true ∧
    (read_memory_via_copy oracleMarkerBackupFail 0xE000 256 ⟨0, []⟩).1 =
      .ok (some (List.replicate 256 0)) :=
  ⟨rfl, rfl, rfl⟩

/-- C2 (amended): only the stub-area, buffer-area, zero-page and
NMI-vector backup reads are checked; when the first failing backup read
is one of those four, `read_memory_via_copy` returns `None` having issued
only the backup reads so far — no write is performed.  (Failures of the
sentinel, CIA2 ICR or CIA2 timer backups do not abort; see the
counterexample.) -/
theorem backup_abort_paths (o : Oracle) (src_addr length : Nat) :
    ((o 0).asBytes = none →
      read_memory_via_copy o src_addr length ⟨0, []⟩ =
        (.ok none, ⟨1, [ApiCall.read STUB_ADDR 128]⟩)) ∧
    (∀ b0, (o 0).asBytes = some b0 → (o 1).asBytes = none →
      read_memory_via_copy o src_addr length ⟨0, []⟩ =
        (.ok none, ⟨2, [ApiCall.read STUB_ADDR 128, ApiCall.read COPY_BUFFER length]⟩)) ∧
    (∀ b0 b1, (o 0).asBytes = some b0 → (o 1).asBytes = some b1 →
      (o 2).asBytes = none →
      read_memory_via_copy o src_addr length ⟨0, []⟩ =
        (.ok none, ⟨3, [ApiCall.read STUB_ADDR 128, ApiCall.read COPY_BUFFER length,
          ApiCall.read 0xFB 4]⟩)) ∧
    (∀ b0 b1 b2, (o 0).asBytes = some b0 → (o 1).asBytes = some b1 →
      (o 2).asBytes = some b2 → (o 4).asBytes = none →
      read_memory_via_copy o src_addr length ⟨0, []⟩ =
        (.ok none, ⟨5, [ApiCall.read STUB_ADDR 128, ApiCall.read COPY_BUFFER length,
          ApiCall.read 0xFB 4, ApiCall.read 0x02 1, ApiCall.read 0x0318 2]⟩)) := by
  refine ⟨fun h0 => ?_, fun b0 h0 h1 => ?_, fun b0 b1 h0 h1 h2 => ?_,
    fun b0 b1 b2 h0 h1 h2 h4 => ?_⟩
  · simp [read_memory_via_copy, apiReadMem, h0]
  · simp [read_memory_via_copy, apiReadMem, h0, h1]
  · simp [read_memory_via_copy, apiReadMem, h0, h1, h2]
  · simp [read_memory_via_copy, apiReadMem, h0, h1, h2, h4]

/-- Witness for `backup_abort_paths`: with an oracle whose every read
fails, the stub backup fails and the orchestrator aborts having issued
exactly one read and no write. -/
theorem backup_abort_paths_witness :
    ((fun _ => ApiRes.bytes none : Oracle) 0).asBytes = none ∧
    read_memory_via_copy (fun _ => ApiRes.bytes none) 0xE000 256 ⟨0, []⟩ =
      (.ok none, ⟨1, [ApiCall.read STUB_ADDR 128]⟩) :=
  ⟨rfl, (backup_abort_paths (fun _ => ApiRes.bytes none) 0xE000 256).1 rfl⟩

/-- C6: the VIC state decoder is a pure function of the register block
and the CIA2 port byte computing
`vic_bank = (3 - (cia2 & 3)) * $4000` (one of $0000/$4000/$8000/$C000),
`screen_mem_addr = vic_bank + ((D018 >> 4) & 0x0F) * $0400`,
`char_mem_addr = vic_bank + ((D018 >> 1) & 0x07) * $0800` and
`bitmap_mem_addr = vic_bank + ((D018 >> 3) & 1) * $2000`. -/
theorem vic_state_decoder_addresses (vic_regs : List Nat) (cia2_data_port : Nat)
    (st : VICIIState) (h : mkVICIIState vic_regs cia2_data_port = some st) :
    st.vic_bank = (3 - (cia2_data_port &&& 0x03)) * 0x4000 ∧
    (st.vic_bank = 0x0000 ∨ st.vic_bank = 0x4000 ∨ st.vic_bank = 0x8000 ∨
      st.vic_bank = 0xC000) ∧
    (∀ d018, vic_regs.get? 0x18 = some d018 →
      st.screen_mem_addr = st.vic_bank + ((d018 >>> 4) &&& 0x0F) * 0x400 ∧
      st.char_mem_addr = st.vic_bank + ((d018 >>> 1) &&& 0x07) * 0x800 ∧
      st.bitmap_mem_addr = st.vic_bank + ((d018 >>> 3) &&& 1) * 0x2000) := by
  simp only [mkVICIIState] at h
  split at h
  case _ d011 d016 d018 r20 r21 r22 r23 r24 r25 r26 h11 h16 h18 h20 h21 h22 h23 h24 h25 h26 =>
    injection h with h
    subst h
    dsimp only
    refine ⟨rfl, ?_, ?_⟩
    · have hb : cia2_data_port &&& 0x03 ≤ 3 := Nat.and_le_right
      omega
    · intro d hd
      rw [h18] at hd
      injection hd with hd
      subst hd
      exact ⟨rfl, rfl, rfl⟩
  case _ =>
    exact absurd h (by simp)

/-- A concrete decoded VIC state: all registers zero, CIA2 port zero
(VIC bank 3 at $C000). -/
def vicStZero : VICIIState :=
  { yscroll := 0, rsel := 0, den := 0, bmm := 0, ecm := 0, xscroll := 0,
    csel := 0, mcm := 0, char_mem_offset := 0, screen_mem_offset := 0,
    bitmap_mem_offset := 0, vic_bank := 0xC000, screen_mem_addr := 0xC000,
    char_mem_addr := 0xC000, bitmap_mem_addr := 0xC000, border_color := 0,
    background_color := 0, background_color1 := 0, background_color2 := 0,
    background_color3 := 0, sprite_multicolor0 := 0, sprite_multicolor1 := 0 }

/-- Witness for `vic_state_decoder_addresses` at an all-zero register
block and CIA2 port 0. -/
theorem vic_state_decoder_addresses_witness :
    mkVICIIState (List.replicate 48 0) 0 = some vicStZero ∧
    vicStZero.vic_bank = (3 - (0 &&& 0x03)) * 0x4000 ∧
    vicStZero.screen_mem_addr = vicStZero.vic_bank + ((0 >>> 4) &&& 0x0F) * 0x400 ∧
    vicStZero.char_mem_addr = vicStZero.vic_bank + ((0 >>> 1) &&& 0x07) * 0x800 ∧
    vicStZero.bitmap_mem_addr = vicStZero.vic_bank + ((0 >>> 3) &&& 1) * 0x2000 := by
  have h := vic_state_decoder_addresses (List.replicate 48 0) 0 vicStZero rfl
  exact ⟨rfl, h.1, (h.2.2 0 rfl).1, (h.2.2 0 rfl).2.1, (h.2.2 0 rfl).2.2⟩

/-- C4 counterexample: with empty memory windows the standard-text and
hi-res bitmap renderers fail at pixel (0, 0) — the Python loops raise
`IndexError` — instead of treating the out-of-range bytes as zero
(which would have produced the background / screen-derived color). -/
theorem short_window_render_fails :
    renderStdTextPixel vicStZero [] [] [] 0 0 = none ∧
    renderHiresBitmapPixel vicStZero [] [] 0 0 = none ∧
    (none : Option Color) ≠ some (palette vicStZero.background_color) :=
  ⟨rfl, rfl, by decide⟩

/-- C4 (amended): the renderers do not zero-fill short windows — an
out-of-range access fails (an `IndexError` in the source) — but with
full-length inputs (screen matrix and color RAM of at least 1000 bytes,
byte-valued screen entries, a 2048-byte character set, an 8000-byte
bitmap) every pixel of the 320x200 frame renders without failure. -/
theorem full_window_render_total (vic : VICIIState)
    (screen_mem color_mem char_rom bitmap_mem : List Nat)
    (hs : 1000 ≤ screen_mem.length) (hsb : ∀ b ∈ screen_mem, b < 256)
    (hc : 1000 ≤ color_mem.length) (hch : 2048 ≤ char_rom.length)
    (hb : 8000 ≤ bitmap_mem.length) (x y : Nat) (hx : x < 320) (hy : y < 200) :
    (renderStdTextPixel vic screen_mem color_mem char_rom x y).isSome ∧
    (renderHiresBitmapPixel vic bitmap_mem screen_mem x y).isSome := by
  have hpos : y / 8 * 40 + x / 8 < 1000 := by omega
  obtain ⟨cc, hcc⟩ : ∃ a, screen_mem.get? (y / 8 * 40 + x / 8) = some a := by
    rw [List.get?_eq_getElem?]
    exact ⟨_, List.getElem?_eq_getElem (lt_of_lt_of_le hpos hs)⟩
  obtain ⟨cb, hcb⟩ : ∃ a, color_mem.get? (y / 8 * 40 + x / 8) = some a := by
    rw [List.get?_eq_getElem?]
    exact ⟨_, List.getElem?_eq_getElem (lt_of_lt_of_le hpos hc)⟩
  have hcclt : cc < 256 := hsb cc (List.get?_mem hcc)
  obtain ⟨ chb, hchb⟩ : ∃ a, char_rom.get? (cc * 8 + y % 8) = some a := by
    rw [List.get?_eq_getElem?]
    refine ⟨_, List.getElem?_eq_getElem (lt_of_lt_of_le ?_ hch)⟩
    omega
  obtain ⟨bb, hbb⟩ : ∃ a, bitmap_mem.get? (y / 8 * 40 * 8 + x / 8 * 8 + y % 8) = some a := by
    rw [List.get?_eq_getElem?]
    refine ⟨_, List.getElem?_eq_getElem (lt_of_lt_of_le ?_ hb)⟩
    omega
  constructor
  · simp only [renderStdTextPixel, hcc, hcb, hchb]
    rfl
  · simp only [renderHiresBitmapPixel, hcc, hbb]
    rfl

/-- Witness for `full_window_render_total` at all-zero full-size windows
and pixel (0, 0). -/
theorem full_window_render_total_witness :
    (renderStdTextPixel vicStZero (List.replicate 1000 0) (List.replicate 1000 0)
      (List.replicate 2048 0) 0 0).isSome ∧
    (renderHiresBitmapPixel vicStZero (List.replicate 8000 0) (List.replicate 1000 0)
      0 0).isSome := by
  have hmem : ∀ b ∈ List.replicate 1000 0, b < 256 := by
    intro b hb
    rw [List.eq_of_mem_replicate hb]
    norm_num
  have h := full_window_render_total vicStZero (List.replicate 1000 0)
    (List.replicate 1000 0) (List.replicate 2048 0) (List.replicate 8000 0)
    (List.length_replicate 1000 0).ge hmem (List.length_replicate 1000 0).ge
    (List.length_replicate 2048 0).ge (List.length_replicate 8000 0).ge
    0 0 (by norm_num) (by norm_num)
  exact h

/-- The VIC state decoded from an all-zero register block with
`$D011 = $60` (ECM = 1, BMM = 1, MCM = 0 — an invalid mode combination). -/
def vicStEcmBmm : VICIIState :=
  { yscroll := 0, rsel := 0, den := 0, bmm := 1, ecm := 1, xscroll := 0,
    csel := 0, mcm := 0, char_mem_offset := 0, screen_mem_offset := 0,
    bitmap_mem_offset := 0, vic_bank := 0xC000, screen_mem_addr := 0xC000,
    char_mem_addr := 0xC000, bitmap_mem_addr := 0xC000, border_color := 0,
    background_color := 0, background_color1 := 0, background_color2 := 0,
    background_color3 := 0, sprite_multicolor0 := 0, sprite_multicolor1 := 0 }

/-- C3 counterexample: ECM = BMM = 1 is decoded as the Invalid/Unused
mode, but the renderer dispatch of `capture_screenshot` still picks the
hi-res bitmap renderer, and with bitmap byte $FF and screen byte $10 the
pixel (0, 0) is white — not the background color (black).  The frame is
therefore not an all-background frame. -/
theorem invalid_mode_not_background :
    mkVICIIState ((List.replicate 48 0).set 0x11 0x60) 0 = some vicStEcmBmm ∧
    get_mode_name vicStEcmBmm = "Invalid/Unused Mode" ∧
    renderDispatchPixel vicStEcmBmm [0xFF] [0x10] [] [] 0 0 = some (0xFF, 0xFF, 0xFF) ∧
    palette vicStEcmBmm.background_color = (0x00, 0x00, 0x00) ∧
    (some ((0xFF : Nat), (0xFF : Nat), (0xFF : Nat)) : Option Color) ≠
      some (0x00, 0x00, 0x00) :=
  ⟨rfl, rfl, rfl, rfl, by decide⟩

/-- C3 (amended): a register state whose (ECM, BMM, MCM) combination is
not one of the five listed modes is decoded with the name
`Invalid/Unused Mode`, but it is not rendered as an all-background frame:
the dispatch in `capture_screenshot` ignores the conflicting ECM bit for
bitmap modes (rendering Multicolor Bitmap when BMM = MCM = 1 and Hi-Res
Bitmap when BMM = 1, MCM = 0) and ignores the conflicting MCM bit when
BMM = 0 (rendering ECM). -/
theorem invalid_mode_dispatch (vic_regs : List Nat) (cia2_data_port : Nat)
    (st : VICIIState) (_h : mkVICIIState vic_regs cia2_data_port = some st)
    (hinv : ¬ ((st.ecm ≠ 0 ∧ st.bmm = 0 ∧ st.mcm = 0) ∨
               (st.ecm = 0 ∧ st.bmm ≠ 0 ∧ st.mcm = 0) ∨
               (st.ecm = 0 ∧ st.bmm ≠ 0 ∧ st.mcm ≠ 0) ∨
               (st.ecm = 0 ∧ st.bmm = 0 ∧ st.mcm ≠ 0) ∨
               (st.ecm = 0 ∧ st.bmm = 0 ∧ st.mcm = 0))) :
    get_mode_name st = "Invalid/Unused Mode" ∧
    ∀ bitmap_mem screen_mem color_mem char_rom x y,
      renderDispatchPixel st bitmap_mem screen_mem color_mem char_rom x y =
        (if st.bmm ≠ 0 ∧ st.mcm ≠ 0 then
           renderMulticolorBitmapPixel st bitmap_mem screen_mem color_mem x y
         else if st.bmm ≠ 0 then
           renderHiresBitmapPixel st bitmap_mem screen_mem x y
         else
           renderECMPixel st screen_mem color_mem char_rom x y) := by
  simp only [not_or] at hinv
  obtain ⟨h1, h2, h3, h4, h5⟩ := hinv
  constructor
  · simp only [get_mode_name, if_neg h1, if_neg h2, if_neg h3, if_neg h4, if_neg h5]
  · intro bitmap_mem screen_mem color_mem char_rom x y
    by_cases hbm : st.bmm ≠ 0 ∧ st.mcm ≠ 0
    · simp only [renderDispatchPixel, if_pos hbm]
    · by_cases hb : st.bmm ≠ 0
      · have hm : ¬ st.mcm ≠ 0 := fun hm => hbm ⟨hb, hm⟩
        simp only [renderDispatchPixel, if_neg hbm, if_pos hb]
      · have hb0 : st.bmm = 0 := by omega
        have he : st.ecm ≠ 0 := by
          intro he0
          rcases Nat.eq_zero_or_pos st.mcm with hm0 | hmp
          · exact h5 ⟨he0, hb0, hm0⟩
          · exact h4 ⟨he0, hb0, by omega⟩
        simp only [renderDispatchPixel, if_neg hbm, if_neg hb, if_pos he]

/-- Witness for `invalid_mode_dispatch` at the ECM = BMM = 1 state. -/
theorem invalid_mode_dispatch_witness :
    get_mode_name vicStEcmBmm = "Invalid/Unused Mode" ∧
    renderDispatchPixel vicStEcmBmm [0xFF] [0x10] [] [] 0 0 =
      (if vicStEcmBmm.bmm ≠ 0 ∧ vicStEcmBmm.mcm ≠ 0 then
         renderMulticolorBitmapPixel vicStEcmBmm [0xFF] [0x10] [] 0 0
       else if vicStEcmBmm.bmm ≠ 0 then
         renderHiresBitmapPixel vicStEcmBmm [0xFF] [0x10] 0 0
       else
         renderECMPixel vicStEcmBmm [0x10] [] [] 0 0) := by
  have h := invalid_mode_dispatch ((List.replicate 48 0).set 0x11 0x60) 0
    vicStEcmBmm (by rfl) (by decide)
  exact ⟨h.1, h.2 [0xFF] [0x10] [] [] 0 0⟩

/-- C5: for 16-bit addresses, a length of at most 65280 (so that the page
count fits in the LDX operand byte) and a supplied continuation, the
emitted stub disassembles to the expected instruction sequence: it
(a) saves A, X, Y and the value of $01 (the leading
`PHA TXA PHA TYA PHA LDA $01 PHA`) and restores them (`PLA STA $01` at
instructions 27-28, and the closing `PLA TAY PLA TAX PLA`),
(b) contains the pair `LDA #$34 / STA $01` exactly once,
(c) contains exactly one `JMP`, as the final instruction, targeting the
supplied continuation address,
(d) contains the pair `LDA #$42 / STA $02` exactly once,
and the page-counter operand (byte 29 of the blob) is
`ceil(length / 256)` = `(length + 255) / 256`. -/
theorem copy_stub_structure (src_addr dst_addr length jmp_target : Nat)
    (hl : length ≤ 65280) (hj : jmp_target < 65536) :
    stubDisasm src_addr dst_addr length (some jmp_target) = some
      [ ⟨0x48, []⟩, ⟨0x8A, []⟩, ⟨0x48, []⟩, ⟨0x98, []⟩, ⟨0x48, []⟩,
        ⟨0xA5, [0x01]⟩, ⟨0x48, []⟩,
        ⟨0xA9, [0x34]⟩, ⟨0x85, [0x01]⟩,
        ⟨0xA9, [src_addr &&& 0xFF]⟩, ⟨0x85, [0xFB]⟩,
        ⟨0xA9, [(src_addr >>> 8) &&& 0xFF]⟩, ⟨0x85, [0xFC]⟩,
        ⟨0xA9, [dst_addr &&& 0xFF]⟩, ⟨0x85, [0xFD]⟩,
        ⟨0xA9, [(dst_addr >>> 8) &&& 0xFF]⟩, ⟨0x85, [0xFE]⟩,
        ⟨0xA2, [(length + 255) / 256]⟩, ⟨0xA0, [0x00]⟩,
        ⟨0xB1, [0xFB]⟩, ⟨0x91, [0xFD]⟩, ⟨0xC8, []⟩, ⟨0xD0, [0xF9]⟩,
        ⟨0xE6, [0xFC]⟩, ⟨0xE6, [0xFE]⟩, ⟨0xCA, []⟩, ⟨0xD0, [0xF0]⟩,
        ⟨0x68, []⟩, ⟨0x85, [0x01]⟩,
        ⟨0xA9, [0x42]⟩, ⟨0x85, [0x02]⟩,
        ⟨0x68, []⟩, ⟨0xA8, []⟩, ⟨0x68, []⟩, ⟨0xAA, []⟩, ⟨0x68, []⟩,
        ⟨0x4C, [jmp_target &&& 0xFF, (jmp_target >>> 8) &&& 0xFF]⟩ ] ∧
    (((stubDisasm src_addr dst_addr length (some jmp_target)).getD []).take 7 =
      [ ⟨0x48, []⟩, ⟨0x8A, []⟩, ⟨0x48, []⟩, ⟨0x98, []⟩, ⟨0x48, []⟩,
        ⟨0xA5, [0x01]⟩, ⟨0x48, []⟩ ]) ∧
    (((stubDisasm src_addr dst_addr length (some jmp_target)).getD []).get? 27 =
        some ⟨0x68, []⟩ ∧
     ((stubDisasm src_addr dst_addr length (some jmp_target)).getD []).get? 28 =
        some ⟨0x85, [0x01]⟩) ∧
    (((stubDisasm src_addr dst_addr length (some jmp_target)).getD []).drop 31 =
      [ ⟨0x68, []⟩, ⟨0xA8, []⟩, ⟨0x68, []⟩, ⟨0xAA, []⟩, ⟨0x68, []⟩,
        ⟨0x4C, [jmp_target &&& 0xFF, (jmp_target >>> 8) &&& 0xFF]⟩ ]) ∧
    countPair ((stubDisasm src_addr dst_addr length (some jmp_target)).getD [])
      ⟨0xA9, [0x34]⟩ ⟨0x85, [0x01]⟩ = 1 ∧
    countPair ((stubDisasm src_addr dst_addr length (some jmp_target)).getD [])
      ⟨0xA9, [0x42]⟩ ⟨0x85, [0x02]⟩ = 1 ∧
    ((stubDisasm src_addr dst_addr length (some jmp_target)).getD []).countP
      (·.op == 0x4C) = 1 ∧
    ((stubDisasm src_addr dst_addr length (some jmp_target)).getD []).getLast? =
      some ⟨0x4C, [jmp_target &&& 0xFF, (jmp_target >>> 8) &&& 0xFF]⟩ ∧
    (jmp_target &&& 0xFF) + 256 * ((jmp_target >>> 8) &&& 0xFF) = jmp_target ∧
    ((generate_copy_stub src_addr dst_addr length (some jmp_target)).getD []).get? 29 =
      some ((length + 255) / 256) := by
  have hmask : ∀ n : Nat, n &&& 0xFF < 256 := fun n =>
    lt_of_le_of_lt Nat.and_le_right (by norm_num)
  have hpages : (length + 255) / 256 < 256 := by
    rw [Nat.div_lt_iff_lt_mul (by norm_num)]
    omega
  have hd : stubDisasm src_addr dst_addr length (some jmp_target) = some
      [ ⟨0x48, []⟩, ⟨0x8A, []⟩, ⟨0x48, []⟩, ⟨0x98, []⟩, ⟨0x48, []⟩,
        ⟨0xA5, [0x01]⟩, ⟨0x48, []⟩,
        ⟨0xA9, [0x34]⟩, ⟨0x85, [0x01]⟩,
        ⟨0xA9, [src_addr &&& 0xFF]⟩, ⟨0x85, [0xFB]⟩,
        ⟨0xA9, [(src_addr >>> 8) &&& 0xFF]⟩, ⟨0x85, [0xFC]⟩,
        ⟨0xA9, [dst_addr &&& 0xFF]⟩, ⟨0x85, [0xFD]⟩,
        ⟨0xA9, [(dst_addr >>> 8) &&& 0xFF]⟩, ⟨0x85, [0xFE]⟩,
        ⟨0xA2, [(length + 255) / 256]⟩, ⟨0xA0, [0x00]⟩,
        ⟨0xB1, [0xFB]⟩, ⟨0x91, [0xFD]⟩, ⟨0xC8, []⟩, ⟨0xD0, [0xF9]⟩,
        ⟨0xE6, [0xFC]⟩, ⟨0xE6, [0xFE]⟩, ⟨0xCA, []⟩, ⟨0xD0, [0xF0]⟩,
        ⟨0x68, []⟩, ⟨0x85, [0x01]⟩,
        ⟨0xA9, [0x42]⟩, ⟨0x85, [0x02]⟩,
        ⟨0x68, []⟩, ⟨0xA8, []⟩, ⟨0x68, []⟩, ⟨0xAA, []⟩, ⟨0x68, []⟩,
        ⟨0x4C, [jmp_target &&& 0xFF, (jmp_target >>> 8) &&& 0xFF]⟩ ] := by
    simp only [stubDisasm, generate_copy_stub]
    rw [if_pos ?hall]
    · rfl
    case hall => simp [hmask, hpages]
  have htgt : (jmp_target &&& 0xFF) + 256 * ((jmp_target >>> 8) &&& 0xFF) = jmp_target := by
    have h1 : jmp_target &&& 0xFF = jmp_target % 256 :=
      Nat.and_pow_two_sub_one_eq_mod jmp_target 8
    have h2 : (jmp_target >>> 8) &&& 0xFF = (jmp_target >>> 8) % 256 :=
      Nat.and_pow_two_sub_one_eq_mod (jmp_target >>> 8) 8
    have h3 : jmp_target >>> 8 = jmp_target / 256 :=
      Nat.shiftRight_eq_div_pow jmp_target 8
    rw [h1, h2, h3]
    omega
  refine ⟨hd, ?_, ⟨?_, ?_⟩, ?_, ?_, ?_, ?_, ?_, htgt, ?_⟩
  · rw [hd]; rfl
  · rw [hd]; rfl
  · rw [hd]; rfl
  · rw [hd]; rfl
  · rw [hd]; rfl
  · rw [hd]; rfl
  · rw [hd]; rfl
  · rw [hd]; rfl
  · simp only [generate_copy_stub]
    rw [if_pos ?hall2]
    · rfl
    case hall2 => simp [hmask, hpages]

/-- Witness for `copy_stub_structure` at src $E000, dst $4000, length
$2000, continuation $FE47. -/
theorem copy_stub_structure_witness :
    (0x2000 ≤ 65280) ∧ (0xFE47 < 65536) ∧
    countPair ((stubDisasm 0xE000 0x4000 0x2000 (some 0xFE47)).getD [])
      ⟨0xA9, [0x34]⟩ ⟨0x85, [0x01]⟩ = 1 ∧
    countPair ((stubDisasm 0xE000 0x4000 0x2000 (some 0xFE47)).getD [])
      ⟨0xA9, [0x42]⟩ ⟨0x85, [0x02]⟩ = 1 ∧
    ((stubDisasm 0xE000 0x4000 0x2000 (some 0xFE47)).getD []).countP
      (·.op == 0x4C) = 1 ∧
    ((stubDisasm 0xE000 0x4000 0x2000 (some 0xFE47)).getD []).getLast? =
      some ⟨0x4C, [0x47, 0xFE]⟩ ∧
    ((generate_copy_stub 0xE000 0x4000 0x2000 (some 0xFE47)).getD []).get? 29 =
      some 32 := by
  have h := copy_stub_structure 0xE000 0x4000 0x2000 0xFE47 (by norm_num) (by norm_num)
  obtain ⟨_, _, _, _, h5, h6, h7, h8, _, h10⟩ := h
  exact ⟨by norm_num, by norm_num, h5, h6, h7, h8, h10⟩

/-- One sprite paste seen at an on-screen pixel: the sprite's
contribution wins where it is opaque, otherwise the underlying image
shows through.  The source's partial-overlap guard can only be false
when the sprite covers no on-screen pixel at all. -/
theorem pasteSpriteImage_pixel (vic : VICIIState) (sp : SpriteInfo)
    (sprite_data : List Nat) (front_only : Bool) (img : Int → Int → Color)
    (X Y : Int) (hX0 : 0 ≤ X) (hX : X < 320) (hY0 : 0 ≤ Y) (hY : Y < 200) :
    pasteSpriteImage vic sp sprite_data front_only img X Y =
      (spriteContribOne vic sp sprite_data front_only X Y).getD (img X Y) := by
  unfold pasteSpriteImage spriteContribOne
  by_cases he : sp.enabled = 0
  · rw [if_pos he, if_pos he]
    rfl
  · rw [if_neg he, if_neg he]
    by_cases hfo : front_only = true ∧ sp.priority = 1
    · rw [if_pos hfo, if_pos hfo]
      rfl
    · rw [if_neg hfo, if_neg hfo]
      by_cases hg : ((sp.x : Int) - 24 < 320 ∧ (sp.y : Int) - 50 < 200 ∧
          (sp.x : Int) - 24 + (spriteWidth sp : Int) > 0 ∧
          (sp.y : Int) - 50 + (spriteHeight sp : Int) > 0)
      · rw [if_pos hg]
        by_cases hb : ((sp.x : Int) - 24 ≤ X ∧
            X < (sp.x : Int) - 24 + (spriteWidth sp : Int) ∧
            (sp.y : Int) - 50 ≤ Y ∧ Y < (sp.y : Int) - 50 + (spriteHeight sp : Int))
        · show (if _ ∧ _ ∧ _ ∧ _ then _ else img X Y) = _
          rw [if_pos hb, if_pos hb]
          cases spritePixel sp vic sprite_data (X - ((sp.x : Int) - 24)).toNat
              (Y - ((sp.y : Int) - 50)).toNat <;> rfl
        · show (if _ ∧ _ ∧ _ ∧ _ then _ else img X Y) = _
          rw [if_neg hb, if_neg hb]
          rfl
      · rw [if_neg hg]
        have hnb : ¬ ((sp.x : Int) - 24 ≤ X ∧
            X < (sp.x : Int) - 24 + (spriteWidth sp : Int) ∧
            (sp.y : Int) - 50 ≤ Y ∧ Y < (sp.y : Int) - 50 + (spriteHeight sp : Int)) := by
          intro hb
          exact hg ⟨by omega, by omega, by omega, by omega⟩
        rw [if_neg hnb]
        rfl

/-- One iteration of the paste loop seen at an on-screen pixel. -/
theorem pasteSpriteStep_pixel (vic : VICIIState) (sprites : List SpriteInfo)
    (sprite_data_list : List (Option (List Nat))) (front_only : Bool)
    (img : Int → Int → Color) (i : Nat) (X Y : Int)
    (hX0 : 0 ≤ X) (hX : X < 320) (hY0 : 0 ≤ Y) (hY : Y < 200) :
    pasteSpriteStep vic sprites sprite_data_list front_only img i X Y =
      (spriteContrib vic sprites sprite_data_list front_only X Y i).getD (img X Y) := by
  unfold pasteSpriteStep spriteContrib
  cases hsp : sprites.get? i with
  | none => rfl
  | some sp =>
    cases hdl : sprite_data_list.get? i with
    | none => rfl
    | some od =>
      cases od with
      | none => rfl
      | some sprite_data =>
        exact pasteSpriteImage_pixel vic sp sprite_data front_only img X Y hX0 hX hY0 hY

/-- Folding paste steps over a list of sprite indices, seen at an
on-screen pixel: the first contributing sprite of the reversed order
wins, otherwise the base image shows through. -/
theorem foldl_paste_pixel (vic : VICIIState) (sprites : List SpriteInfo)
    (sprite_data_list : List (Option (List Nat))) (front_only : Bool)
    (X Y : Int) (hX0 : 0 ≤ X) (hX : X < 320) (hY0 : 0 ≤ Y) (hY : Y < 200)
    (L : List Nat) :
    ∀ img : Int → Int → Color,
      (L.foldl (pasteSpriteStep vic sprites sprite_data_list front_only) img) X Y =
        (L.reverse.findSome?
          (spriteContrib vic sprites sprite_data_list front_only X Y)).getD (img X Y) := by
  induction L with
  | nil => intro img; simp
  | cons i L ih =>
    intro img
    rw [List.foldl_cons,
      ih (pasteSpriteStep vic sprites sprite_data_list front_only img i),
      List.reverse_cons, List.findSome?_append]
    cases hfs : L.reverse.findSome? (spriteContrib vic sprites sprite_data_list front_only X Y) with
    | some c => simp [Option.or]
    | none =>
      simp only [Option.or]
      rw [pasteSpriteStep_pixel vic sprites sprite_data_list front_only img i X Y hX0 hX hY0 hY]
      simp only [List.findSome?]
      cases spriteContrib vic sprites sprite_data_list front_only X Y i <;> rfl

/-- C8: at every on-screen pixel the sprite compositor shows the
contribution of the first (lowest-index) enabled sprite that covers and
is opaque at that pixel — the descending 7..0 paste order makes sprite 0
topmost — falling back to the screen image where no sprite contributes.
Coverage is at placement `(x - 24, y - 50)`, and the quantification over
arbitrary sprite coordinates (including sprites partly or fully outside
the 320x200 screen) shows that clipping never fails. -/
theorem overlay_sprites_pixel (vic : VICIIState) (sprites : List SpriteInfo)
    (sprite_data_list : List (Option (List Nat))) (front_only : Bool)
    (screen_img : Int → Int → Color) (X Y : Int)
    (hX0 : 0 ≤ X) (hX : X < 320) (hY0 : 0 ≤ Y) (hY : Y < 200) :
    overlay_sprites vic sprites sprite_data_list front_only screen_img X Y =
      ((List.range 8).findSome?
        (spriteContrib vic sprites sprite_data_list front_only X Y)).getD
        (screen_img X Y) := by
  have hrev : ([7, 6, 5, 4, 3, 2, 1, 0] : List Nat).reverse = List.range 8 := by decide
  rw [overlay_sprites,
    foldl_paste_pixel vic sprites sprite_data_list front_only X Y hX0 hX hY0 hY
      [7, 6, 5, 4, 3, 2, 1, 0] screen_img, hrev]

/-- A concrete sprite for the witness: sprite 0, enabled, hi-res,
unexpanded, color 5, at VIC position (24, 50) — screen position (0, 0). -/
def spriteZero : SpriteInfo :=
  { num := 0, x := 24, y := 50, enabled := 1, y_expand := 0, priority := 0,
    multicolor := 0, x_expand := 0, color := 5, data_addr := 0, pointer := 0 }

/-- Witness for `overlay_sprites_pixel`: one enabled sprite with a solid
first row, evaluated at pixel (0, 0). -/
theorem overlay_sprites_pixel_witness :
    overlay_sprites vicStZero [spriteZero] [some [0xFF, 0xFF, 0xFF]] false
      (fun _ _ => (0, 0, 0)) 0 0 =
      ((List.range 8).findSome?
        (spriteContrib vicStZero [spriteZero] [some [0xFF, 0xFF, 0xFF]] false 0 0)).getD
        ((fun _ _ => ((0 : Nat), (0 : Nat), (0 : Nat))) 0 0) :=
  overlay_sprites_pixel vicStZero [spriteZero] [some [0xFF, 0xFF, 0xFF]] false
    (fun _ _ => (0, 0, 0)) 0 0 (by norm_num) (by norm_num) (by norm_num) (by norm_num)

/-- One step of the option loop on a `--upscale=` argument: the branch
dispatch reaches the upscale handler and hands the part after the first
`=` to `int()`. -/
theorem processArgs_upscale_step (arg pre v : String) (rest : List String)
    (cfg : CliConfig) (h1 : pyStartsWith arg "--upscale=" = true)
    (hsplit : pySplitOnce '=' arg = some (pre, v)) :
    processArgs (arg :: rest) cfg =
      (match pyInt? v with
       | some n => processArgs rest { cfg with upscale := if n < 1 then 1 else n }
       | none => .error 1) := by
  have hne1 : ¬ arg = "--no-border" := by
    intro he
    subst he
    exact absurd h1 (by decide)
  have hne2 : ¬ arg = "--nosprites" := by
    intro he
    subst he
    exact absurd h1 (by decide)
  have hne3 : ¬ arg = "--no-rom-bypass" := by
    intro he
    subst he
    exact absurd h1 (by decide)
  simp only [processArgs]
  rw [if_neg hne1, if_neg hne2, if_neg hne3, if_pos h1, hsplit]

/-- C10: a `--upscale=N` argument whose value parses as an integer below 1
is silently clamped to 1 and processing continues; a value that does not
parse as an integer exits with code 1; and end-to-end, `main` invoked
with such a clamped argument proceeds to the capture and exits 0 exactly
when the capture succeeds (1 when it returns failure; an uncaught
exception otherwise). -/
theorem upscale_clamping :
    (∀ (arg pre v : String) (n : Int) (rest : List String) (cfg : CliConfig),
      pyStartsWith arg "--upscale=" = true →
      pySplitOnce '=' arg = some (pre, v) →
      pyInt? v = some n → n < 1 →
      processArgs (arg :: rest) cfg = processArgs rest { cfg with upscale := 1 }) ∧
    (∀ (arg pre v : String) (rest : List String) (cfg : CliConfig),
      pyStartsWith arg "--upscale=" = true →
      pySplitOnce '=' arg = some (pre, v) →
      pyInt? v = none →
      processArgs (arg :: rest) cfg = .error 1) ∧
    (∀ (o : Oracle) (ip arg pre v : String) (n : Int),
      pyStartsWith arg "--upscale=" = true →
      pySplitOnce '=' arg = some (pre, v) →
      pyInt? v = some n → n < 1 →
      ip ≠ "--help" → ip ≠ "-h" →
      pymain ["C64U-Screenshot.py", ip, arg] o =
        (match capture_screenshot o true true 1 true ⟨0, []⟩ with
         | (.ok true, _) => Except.ok 0
         | (.ok false, _) => .ok 1
         | (.error e, _) => .error e)) := by
  have hstep : ∀ (arg pre v : String) (n : Int) (rest : List String) (cfg : CliConfig),
      pyStartsWith arg "--upscale=" = true →
      pySplitOnce '=' arg = some (pre, v) →
      pyInt? v = some n → n < 1 →
      processArgs (arg :: rest) cfg = processArgs rest { cfg with upscale := 1 } := by
    intro arg pre v n rest cfg h1 hsplit hint hlt
    rw [processArgs_upscale_step arg pre v rest cfg h1 hsplit, hint]
    simp only [if_pos hlt]
  refine ⟨hstep, ?_, ?_⟩
  · intro arg pre v rest cfg h1 hsplit hint
    rw [processArgs_upscale_step arg pre v rest cfg h1 hsplit, hint]
  · intro o ip arg pre v n h1 hsplit hint hlt hip1 hip2
    have harg1 : arg ≠ "--help" := by
      intro he
      subst he
      exact absurd h1 (by decide)
    have harg2 : arg ≠ "-h" := by
      intro he
      subst he
      exact absurd h1 (by decide)
    have hcond : ¬ ((["C64U-Screenshot.py", ip, arg] : List String).length < 2 ∨
        "--help" ∈ ["C64U-Screenshot.py", ip, arg] ∨
        "-h" ∈ ["C64U-Screenshot.py", ip, arg]) := by
      intro hc
      rcases hc with h | h | h
      · simp at h
      · rcases List.mem_cons.mp h with h | h
        · exact absurd h (by decide)
        · rcases List.mem_cons.mp h with h | h
          · exact hip1 h.symm
          · rcases List.mem_cons.mp h with h | h
            · exact harg1 h.symm
            · simp at h
      · rcases List.mem_cons.mp h with h | h
        · exact absurd h (by decide)
        · rcases List.mem_cons.mp h with h | h
          · exact hip2 h.symm
          · rcases List.mem_cons.mp h with h | h
            · exact harg2 h.symm
            · simp at h
    have hpa : processArgs [arg] defaultCliConfig =
        .ok { defaultCliConfig with upscale := 1 } := by
      rw [hstep arg pre v n [] defaultCliConfig h1 hsplit hint hlt]
      rfl
    simp only [pymain]
    rw [if_neg hcond,
      show (["C64U-Screenshot.py", ip, arg] : List String).drop 2 = [arg] from rfl, hpa]
    rfl

/-- Witness for `upscale_clamping` at `--upscale=0` with an oracle that
answers failure to every request. -/
theorem upscale_clamping_witness :
    pyStartsWith "--upscale=0" "--upscale=" = true ∧
    pySplitOnce '=' "--upscale=0" = some ("--upscale", "0") ∧
    pyInt? "0" = some 0 ∧ ((0 : Int) < 1) ∧
    processArgs ["--upscale=0"] defaultCliConfig =
      processArgs [] { defaultCliConfig with upscale := 1 } ∧
    pymain ["C64U-Screenshot.py", "192.168.1.100", "--upscale=0"]
      (fun _ => ApiRes.flag false) =
      (match capture_screenshot (fun _ => ApiRes.flag false) true true 1 true ⟨0, []⟩ with
       | (.ok true, _) => Except.ok 0
       | (.ok false, _) => .ok 1
       | (.error e, _) => .error e) := by
  refine ⟨rfl, rfl, rfl, by norm_num, ?_, ?_⟩
  · exact upscale_clamping.1 "--upscale=0" "--upscale" "0" 0 [] defaultCliConfig
      rfl rfl rfl (by norm_num)
  · exact upscale_clamping.2.2 (fun _ => ApiRes.flag false) "192.168.1.100"
      "--upscale=0" "--upscale" "0" 0 rfl rfl rfl (by norm_num) (by decide) (by decide)
